import Mathlib

/-!
# ESP32 / Muses72323 preamplifier controller

A shallow embedding of `lib/Muses72323/Muses72323.cpp` (the register protocol
encoder of the volume chip) and of `src/main.cpp` (the control loop: rotary
knob, push button, RC5 remote, persisted settings, source routing lines).

Conventions of the embedding.

* C integers are `Int` / `Nat` with the wrap-around written out:
  `int` and `unsigned long` are 32 bits wide on the ESP32, `int16_t`,
  `uint16_t` and `uint8_t` have their usual widths.
* The hardware is a set of traces carried in the state: the bytes and latch
  edges sent to the Muses chip, the pin writes sent to the MCP23S08 expander,
  the calls made on the display, and the contents of the preferences store.
* `millis()` and `rc5.read` are inputs: the clock reading and the decoded
  frame (if any) are arguments of the functions that consult them.
-/

namespace Preamp

/-! ## Machine integers -/

/-- Two's-complement value of a 32-bit `int`. -/
def wrapInt32 (x : Int) : Int := (x + 2147483648) % 4294967296 - 2147483648

/-- Two's-complement value of an `int16_t`. -/
def wrapInt16 (x : Int) : Int := (x + 32768) % 65536 - 32768

/-- Conversion to `uint32_t` / `unsigned long`. -/
def toUInt32 (x : Int) : Nat := (x % 4294967296).toNat

/-- Conversion to `uint16_t`. -/
def toUInt16 (x : Int) : Nat := (x % 65536).toNat

/-- Conversion to `uint8_t`. -/
def toUInt8 (x : Int) : Nat := (x % 256).toNat

/-! ## Arduino core helpers used by the library -/

/-- Arduino `highByte(w)`: `(uint8_t)((w) >> 8)`. -/
def highByte (w : Nat) : Nat := (w >>> 8) % 256

/-- Arduino `lowByte(w)`: `(uint8_t)((w) & 0xff)`. -/
def lowByte (w : Nat) : Nat := (w &&& 0xff) % 256

/-- Arduino `bitSet(value, bit)` on a `uint16_t` variable:
`value |= (1UL << bit)`. -/
def bitSet (value bit : Nat) : Nat := (value ||| (1 <<< bit)) % 65536

/-- Arduino `bitClear(value, bit)` on a `uint16_t` variable:
`value &= ~(1UL << bit)`. -/
def bitClear (value bit : Nat) : Nat :=
  (value &&& (4294967295 ^^^ ((1 <<< bit) % 4294967296))) % 65536

/-- Arduino `bitWrite(value, bit, bitvalue)`:
`(bitvalue) ? bitSet(value, bit) : bitClear(value, bit)`. -/
def bitWrite (value bit : Nat) (bitvalue : Bool) : Nat :=
  if bitvalue then bitSet value bit else bitClear value bit

/-- Arduino `bitRead(value, bit)`: `((value) >> (bit)) & 0x01`. -/
def bitRead (value bit : Nat) : Nat := (value >>> bit) &&& 1

/-! ## `Muses72323.cpp` -/

/-- What the library does on the SPI bus and on the latch (chip-select) pin,
in program order. -/
inductive SpiEvent where
  | beginTransaction
  | latch (high : Bool)
  | xfer (byte : Nat)
  | endTransaction
  deriving DecidableEq

/-- Control select address of the left attenuation register. -/
def s_control_attenuation_l : Nat := 0b0000000000010000
/-- Control select address of the right attenuation register. -/
def s_control_attenuation_r : Nat := 0b0000000000010100
/-- Control select address of the gain register. -/
def s_control_gain : Nat := 0b0000000000001000
/-- Control select address of the states register. -/
def s_control_states : Nat := 0b0000001000001100

/-- Bit number of the soft-step option. -/
def s_state_soft_step : Nat := 4
/-- Bit number of the zero-crossing option. -/
def s_state_bit_zero_crossing : Nat := 8
/-- Bit number of the clock-select option. -/
def s_state_external_clock : Nat := 9
/-- Bit number of the channel-link option. -/
def s_state_bit_gain : Nat := 15

/-- The function `volume_to_attenuation`: `tmp = 4096 + (-volume * 128)` in
`int`, then `static_cast<data_t>(tmp)` with `data_t = uint16_t`. -/
def volume_to_attenuation (volume : Int) : Nat :=
  let tmp := wrapInt32 (4096 + wrapInt32 (wrapInt32 (-volume) * 128))
  toUInt16 tmp

/-- The data members of `class Muses72323`. -/
structure Muses72323 where
  chip_address : Nat
  states : Nat
  gain : Nat
  deriving DecidableEq

namespace Muses72323

/-- The constructor: `chip_address(chip_address & 0b11), states(0)`.  The
member `gain` has no initialiser; `gain0` is the content of its storage when
the object is constructed (zero for an object of static storage duration). -/
def construct (chip_address gain0 : Nat) : Muses72323 :=
  { chip_address := (chip_address % 65536) &&& 0b0000000000000011
    states := 0
    gain := gain0 % 65536 }

/-- The method `begin`: the latch pin is driven high. -/
def begin (_self : Muses72323) : List SpiEvent := [SpiEvent.latch true]

/-- The 16-bit word built by `transfer`: `address | chip_address | data`. -/
def word (self : Muses72323) (address data : Nat) : Nat :=
  let tmp := address ||| self.chip_address
  tmp ||| data

/-- The method `transfer`: one frame, high byte then low byte, inside one
latch-low / latch-high cycle. -/
def transfer (self : Muses72323) (address data : Nat) : List SpiEvent :=
  let tmp := self.word address data
  [SpiEvent.beginTransaction, SpiEvent.latch false,
   SpiEvent.xfer (highByte tmp), SpiEvent.xfer (lowByte tmp),
   SpiEvent.latch true, SpiEvent.endTransaction]

/-- The method `setVolume(lch, rch)`. -/
def setVolume (self : Muses72323) (lch rch : Int) : List SpiEvent :=
  self.transfer s_control_attenuation_l (volume_to_attenuation lch) ++
  self.transfer s_control_attenuation_r (volume_to_attenuation rch)

/-- The method `setGain()`. -/
def setGain (self : Muses72323) : List SpiEvent :=
  self.transfer s_control_gain self.gain

/-- The method `mute()`. -/
def mute (self : Muses72323) : List SpiEvent :=
  self.transfer s_control_attenuation_l 0 ++
  self.transfer s_control_attenuation_r 0

/-- The method `setExternalClock(enabled)`: the updated object and the frame
sent. -/
def setExternalClock (self : Muses72323) (enabled : Bool) :
    Muses72323 × List SpiEvent :=
  let self1 := { self with states := bitWrite self.states s_state_external_clock (!enabled) }
  (self1, self1.transfer s_control_states self1.states)

/-- The method `setZeroCrossingOn(enabled)`. -/
def setZeroCrossingOn (self : Muses72323) (enabled : Bool) :
    Muses72323 × List SpiEvent :=
  let self1 := { self with gain := bitWrite self.gain s_state_bit_zero_crossing (!enabled) }
  (self1, self1.transfer s_control_gain self1.gain)

/-- The method `setLinkChannels(enabled)`. -/
def setLinkChannels (self : Muses72323) (enabled : Bool) :
    Muses72323 × List SpiEvent :=
  let self1 := { self with gain := bitWrite self.gain s_state_bit_gain enabled }
  (self1, self1.transfer s_control_gain self1.gain)

end Muses72323

/-! ## `main.cpp`: the collaborators -/

/-- The two persisted values of the `Preferences` store; `none` is an absent
key. -/
structure Preferences where
  VOLUME : Option Int
  SOURCE : Option Nat
  deriving DecidableEq

/-- The call `preferences.getInt(key, defaultValue)` on the key `VOLUME`: an
`int32_t`. -/
def Preferences.getInt (p : Preferences) (defaultValue : Int) : Int :=
  match p.VOLUME with
  | some v => wrapInt32 v
  | none => defaultValue

/-- The call `preferences.getUInt(key, defaultValue)` on the key `SOURCE`: a
`uint32_t`. -/
def Preferences.getUInt (p : Preferences) (defaultValue : Nat) : Nat :=
  match p.SOURCE with
  | some v => v % 4294967296
  | none => defaultValue

/-- What is drawn: a string literal of the program, the volume readout
(`sprintf` of `(float)volume / 4`, recorded by the volume it is computed
from), or the entry `inputName[index]`. -/
inductive DisplayText where
  | literal (text : String)
  | volumeDb (volume : Int)
  | inputName (index : Int)
  deriving DecidableEq

/-- Calls made on the display driver, in program order. -/
inductive DisplayEvent where
  | begin
  | clearBuffer
  | setFont
  | drawStr (x y : Nat) (text : DisplayText)
  | sendBuffer
  deriving DecidableEq

/-- A decoded RC5 frame as `rc5.read` hands it over: three `u_char`. -/
structure RC5Frame where
  toggle : Nat
  address : Nat
  command : Nat
  deriving DecidableEq

/-- Machine state: normal run. -/
def STATE_RUN : Nat := 0
/-- Machine state: the user selects the input. -/
def STATE_IO : Nat := 1
/-- Seconds without activity after which input selection is left. -/
def TIME_EXITSELECT : Int := 5

/-- The global variables of `main.cpp` the control flow reads or writes,
together with the traces of the hardware. -/
structure State where
  Muses : Muses72323
  milOnButton : Nat
  volume : Int
  backlight : Bool
  source : Nat
  oldsource : Nat
  isMuted : Bool
  state : Nat
  oldtoggle : Nat
  turnedRightFlag : Bool
  turnedLeftFlag : Bool
  preferences : Preferences
  spi : List SpiEvent
  mcp : List (Nat × Bool)
  display : List DisplayEvent

/-- The call `MCP.write1(pin, value)`: the pin argument is a `uint8_t`. -/
def mcpWrite1 (s : State) (pin : Int) (value : Bool) : State :=
  { s with mcp := s.mcp ++ [(toUInt8 pin, value)] }

/-! ## `main.cpp`: the functions -/

/-- The callback `knobCallback(value)`. -/
def knobCallback (s : State) (value : Int) : State :=
  if s.turnedRightFlag || s.turnedLeftFlag then s
  else if value = 1 then { s with turnedRightFlag := true }
  else if value = -1 then { s with turnedLeftFlag := true }
  else s

/-- The callback `buttonCallback(duration)`; `now` is the reading of
`millis()`.  The duration is an `unsigned long` stored into an `int`. -/
def buttonCallback (s : State) (duration now : Nat) : State :=
  let _duration := wrapInt32 (duration : Int)
  if _duration > 50 then
    if s.state = STATE_RUN then { s with state := STATE_IO, milOnButton := now % 4294967296 }
    else s
  else s

/-- The function `setVolume()` of `main.cpp`. -/
def setVolume (s : State) : State :=
  { s with
    spi := s.spi ++ s.Muses.setVolume s.volume s.volume
    preferences := { s.preferences with VOLUME := some s.volume }
    display := s.display ++
      [DisplayEvent.drawStr 0 15 (DisplayText.volumeDb s.volume), DisplayEvent.sendBuffer] }

/-- The function `setIO()`. -/
def setIO (s : State) : State :=
  let s1 := mcpWrite1 s ((s.oldsource : Int) - 1) false
  let s2 := mcpWrite1 s1 ((s1.source : Int) - 1) true
  let s3 := { s2 with preferences := { s2.preferences with SOURCE := some s2.source } }
  let s4 := if s3.isMuted then setVolume s3 else s3
  { s4 with
    display := s4.display ++
      [DisplayEvent.drawStr 0 45 (DisplayText.inputName ((s4.source : Int) - 1)),
       DisplayEvent.sendBuffer] }

/-- The function `unMute()`. -/
def unMute (s : State) : State :=
  let s1 := { s with isMuted := false }
  let s2 := setVolume s1
  setIO s2

/-- The function `mute()` of `main.cpp`. -/
def mute (s : State) : State :=
  { s with
    isMuted := true
    spi := s.spi ++ s.Muses.mute
    display := s.display ++
      [DisplayEvent.drawStr 0 15 (DisplayText.literal "    Muted    "),
       DisplayEvent.sendBuffer] }

/-- The function `toggleMute()`. -/
def toggleMute (s : State) : State :=
  if s.isMuted then unMute s else mute s

/-- The statement `volume = volume + 1; setVolume();` guarded by
`volume < 0`, preceded by the unmute, as it stands in `volumeUpdate` and in
`RC5Update` (case 16). -/
def volumeUp (s : State) : State :=
  let s1 := if s.isMuted then unMute s else s
  if s1.volume < 0 then setVolume { s1 with volume := wrapInt16 (s1.volume + 1) }
  else s1

/-- The statement `volume = volume - 1; setVolume();` guarded by
`volume > -447`, preceded by the unmute, as it stands in `volumeUpdate` and
in `RC5Update` (case 17). -/
def volumeDown (s : State) : State :=
  let s1 := if s.isMuted then unMute s else s
  if s1.volume > -447 then setVolume { s1 with volume := wrapInt16 (s1.volume - 1) }
  else s1

/-- The function `volumeUpdate()`. -/
def volumeUpdate (s : State) : State :=
  if s.turnedRightFlag then
    { volumeUp s with turnedRightFlag := false }
  else if s.turnedLeftFlag then
    { volumeDown s with turnedLeftFlag := false }
  else s

/-- The function `sourceUpdate()`; `now` is the reading of `millis()`. -/
def sourceUpdate (s : State) (now : Nat) : State :=
  if s.turnedRightFlag then
    let s1 := { s with oldsource := s.source, milOnButton := now % 4294967296 }
    let s2 :=
      if s1.oldsource < 4 then { s1 with source := (s1.source + 1) % 256 }
      else { s1 with source := 1 }
    { setIO s2 with turnedRightFlag := false }
  else if s.turnedLeftFlag then
    let s1 := { s with oldsource := s.source, milOnButton := now % 4294967296 }
    let s2 :=
      if s1.source > 1 then { s1 with source := toUInt8 ((s1.source : Int) - 1) }
      else { s1 with source := 4 }
    { setIO s2 with turnedLeftFlag := false }
  else s

/-- The body shared by the four source cases of `RC5Update`:
`oldsource = source; source = n; setIO();`. -/
def selectSource (s : State) (n : Nat) : State :=
  setIO { s with oldsource := s.source, source := n }

/-- The function `RC5Update()`; `frame` is what `rc5.read` returned (`none`
when no new command was decoded). -/
def RC5Update (s : State) (frame : Option RC5Frame) : State :=
  match frame with
  | none => s
  | some f =>
    let s1 :=
      if f.address = 0x10 then
        if f.command = 1 then
          if s.oldtoggle ≠ f.toggle then selectSource s 1 else s
        else if f.command = 3 then
          if s.oldtoggle ≠ f.toggle then selectSource s 4 else s
        else if f.command = 7 then
          if s.oldtoggle ≠ f.toggle then selectSource s 3 else s
        else if f.command = 8 then
          if s.oldtoggle ≠ f.toggle then selectSource s 2 else s
        else if f.command = 13 then
          if s.oldtoggle ≠ f.toggle then toggleMute s else s
        else if f.command = 16 then volumeUp s
        else if f.command = 17 then volumeDown s
        else s
      else if f.address = 0x14 then
        if s.oldtoggle ≠ f.toggle then
          if f.command = 53 then
            let s2 := if !s.backlight then unMute s else s
            selectSource s2 3
          else s
        else s
      else s
    { s1 with oldtoggle := f.toggle }

/-- The function `RotaryUpdate()`; `now1` is the reading of `millis()` inside
`sourceUpdate`, `now2` the later reading in the time-out test
`(millis() - milOnButton) > TIME_EXITSELECT * 1000` (unsigned, 32 bits). -/
def RotaryUpdate (s : State) (now1 now2 : Nat) : State :=
  if s.state = STATE_RUN then volumeUpdate s
  else if s.state = STATE_IO then
    let s1 := sourceUpdate s now1
    if toUInt32 ((now2 % 4294967296 : Nat) - (s1.milOnButton : Int)) >
        toUInt32 (TIME_EXITSELECT * 1000) then
      { s1 with state := STATE_RUN }
    else s1
  else s

/-- The globals as the C++ runtime initialises them before `setup()` runs
(zero, except `oldsource = 1`), with `stored` in the preferences store and
nothing yet sent to the hardware.  `Muses` is constructed with
`MUSES_ADDRESS = 0`; it has static storage duration. -/
def boot (stored : Preferences) : State :=
  { Muses := Muses72323.construct 0 0
    milOnButton := 0
    volume := 0
    backlight := false
    source := 0
    oldsource := 1
    isMuted := false
    state := 0
    oldtoggle := 0
    turnedRightFlag := false
    turnedLeftFlag := false
    preferences := stored
    spi := []
    mcp := []
    display := [] }

/-- The first part of `setup()`: the display is started, the title screen
is drawn and cleared. -/
def setupDisplay (s : State) : State :=
  { s with
    display := s.display ++
      [DisplayEvent.begin, DisplayEvent.clearBuffer, DisplayEvent.setFont,
       DisplayEvent.drawStr 0 15 (DisplayText.literal "ESP32/OLED"),
       DisplayEvent.drawStr 0 30 (DisplayText.literal "Muses72323 Controller"),
       DisplayEvent.drawStr 0 45 (DisplayText.literal "SW ver 1.0"),
       DisplayEvent.sendBuffer, DisplayEvent.clearBuffer, DisplayEvent.sendBuffer] }

/-- The statement `Muses.begin();` of `setup()`. -/
def setupMusesBegin (s : State) : State :=
  { s with spi := s.spi ++ s.Muses.begin }

/-- The statement `Muses.setExternalClock(false);` of `setup()`. -/
def setupExternalClock (s : State) : State :=
  { s with
    Muses := (s.Muses.setExternalClock false).1
    spi := s.spi ++ (s.Muses.setExternalClock false).2 }

/-- The statement `Muses.setZeroCrossingOn(true);` of `setup()`. -/
def setupZeroCrossing (s : State) : State :=
  { s with
    Muses := (s.Muses.setZeroCrossingOn true).1
    spi := s.spi ++ (s.Muses.setZeroCrossingOn true).2 }

/-- The statement `Muses.mute();` of `setup()`. -/
def setupMute (s : State) : State :=
  { s with spi := s.spi ++ s.Muses.mute }

/-- The statement `source = preferences.getUInt("SOURCE", 1);` of `setup()`:
a `uint32_t` stored into a `uint8_t`. -/
def loadSource (s : State) : State :=
  { s with source := toUInt8 (s.preferences.getUInt 1) }

/-- The statements `volume = preferences.getInt("VOLUME", -447);
if (volume>0) volume = -447;` of `setup()`: an `int32_t` stored into an
`int16_t`, then the test. -/
def loadVolume (s : State) : State :=
  let s1 := { s with volume := wrapInt16 (s.preferences.getInt (-447)) }
  if s1.volume > 0 then { s1 with volume := -447 } else s1

/-- The function `setup()`: its statements in program order, ending with
`setVolume(); setIO(); isMuted = 0;`. -/
def setup (s : State) : State :=
  { ( setIO (setVolume (loadVolume (loadSource (setupMute (setupZeroCrossing
      (setupExternalClock (setupMusesBegin (setupDisplay s))))))))) with
    isMuted := false }

/-- One pass of `loop()`: `RC5Update(); RotaryUpdate();`. -/
def loop (s : State) (frame : Option RC5Frame) (now1 now2 : Nat) : State :=
  RotaryUpdate (RC5Update s frame) now1 now2

/-! ## Reading the traces -/

/-- The level of an output pin of the MCP23S08 after the writes of `log`
(oldest first): the value of the last write to that pin, low when the pin
was never written (`setup()` starts with all outputs low). -/
def pinLevel (log : List (Nat × Bool)) (pin : Nat) : Bool :=
  log.foldl (fun level w => if w.1 = pin then w.2 else level) false

/-- The routing state the program maintains: `source` and `oldsource` each
name one of the four inputs, and of the four routing lines exactly the line
`source - 1` is high. -/
def RoutingOk (s : State) : Prop :=
  (1 ≤ s.source ∧ s.source ≤ 4) ∧ (1 ≤ s.oldsource ∧ s.oldsource ≤ 4) ∧
  ∀ p, p < 4 → (pinLevel s.mcp p = true ↔ p + 1 = s.source)

/-- The persisted values agree with the variables in memory. -/
def Persisted (s : State) : Prop :=
  s.preferences.VOLUME = some s.volume ∧ s.preferences.SOURCE = some s.source

/-- A step from `s` to `t` writes through: each of volume and source is
either stored with the value it has in `t`, or has in `t` the value and the
stored value it had in `s`. -/
def WriteThrough (s t : State) : Prop :=
  (t.preferences.VOLUME = some t.volume ∨
    (t.volume = s.volume ∧ t.preferences.VOLUME = s.preferences.VOLUME)) ∧
  (t.preferences.SOURCE = some t.source ∨
    (t.source = s.source ∧ t.preferences.SOURCE = s.preferences.SOURCE))

/-! ## The attenuation formula -/

/-- Within the volume range the three `int` operations of
`volume_to_attenuation` do not wrap and the cast to `uint16_t` loses
nothing. -/
theorem volume_to_attenuation_eq (v : Int) (hlo : -447 ≤ v) (hhi : v ≤ 0) :
    (volume_to_attenuation v : Int) = 4096 - 128 * v := by
  simp only [volume_to_attenuation, toUInt16, wrapInt32]
  omega

/-- C1: for every volume `v` with `-447 ≤ v ≤ 0`, `volume_to_attenuation v`
is exactly `4096 - 128 * v`, a value between 4096 and 61312 that fits the
16-bit register type; at `0`, `-1` and `-447` it is 4096, 4224 and 61312. -/
theorem C1_volume_to_attenuation_exact (v : Int) (hlo : -447 ≤ v) (hhi : v ≤ 0) :
    (volume_to_attenuation v : Int) = 4096 - 128 * v ∧
    4096 ≤ volume_to_attenuation v ∧ volume_to_attenuation v ≤ 61312 ∧
    volume_to_attenuation v < 65536 ∧
    volume_to_attenuation 0 = 4096 ∧
    volume_to_attenuation (-1) = 4224 ∧
    volume_to_attenuation (-447) = 61312 := by
  have h := volume_to_attenuation_eq v hlo hhi
  refine ⟨h, by omega, by omega, by omega, by decide, by decide, by decide⟩

/-- C1 at the quietest setting: the hypotheses hold for `v = -447`. -/
theorem C1_volume_to_attenuation_exact_witness :
    (-447 : Int) ≤ -447 ∧ (-447 : Int) ≤ 0 ∧
    (volume_to_attenuation (-447) : Int) = 4096 - 128 * (-447) ∧
    4096 ≤ volume_to_attenuation (-447) ∧ volume_to_attenuation (-447) ≤ 61312 ∧
    volume_to_attenuation (-447) < 65536 ∧
    volume_to_attenuation 0 = 4096 ∧
    volume_to_attenuation (-1) = 4224 ∧
    volume_to_attenuation (-447) = 61312 :=
  ⟨by decide, by decide, C1_volume_to_attenuation_exact (-447) (by decide) (by decide)⟩

/-! ## Bit-level facts about the frame word -/

/-- Masking a `uint16_t` chip address with `0b11` keeps its two low bits. -/
theorem chip_mask (a : Nat) : (a % 65536) &&& 3 = a &&& 3 := by
  have h3 : (3 : Nat) = 2 ^ 2 - 1 := rfl
  rw [h3, Nat.and_pow_two_sub_one_eq_mod, Nat.and_pow_two_sub_one_eq_mod]
  omega

/-- The masked chip address is below 4. -/
theorem chip_lt (a : Nat) : a &&& 3 < 4 := by
  have h3 : (3 : Nat) = 2 ^ 2 - 1 := rfl
  rw [h3, Nat.and_pow_two_sub_one_eq_mod]
  omega

/-- A value below 128 and a multiple of 128 have no bit in common: their
bitwise OR is their sum. -/
theorem or_mul_128 (x k : Nat) (hx : x < 128) : x ||| (128 * k) = x + 128 * k := by
  have h := Nat.mul_add_lt_is_or (i := 7) (b := x) (by simpa using hx) k
  have h7 : (2 : Nat) ^ 7 = 128 := rfl
  rw [h7] at h
  rw [Nat.or_comm, ← h]
  omega

/-- The select address `0b10000` and a chip address below 4 combine by
addition. -/
theorem or_chip_l (c : Nat) (hc : c < 4) : s_control_attenuation_l ||| c = 16 + c := by
  have h := Nat.mul_add_lt_is_or (i := 2) (b := c) (by simpa using hc) 4
  simpa [s_control_attenuation_l, Nat.add_comm] using h.symm

/-- The select address `0b10100` and a chip address below 4 combine by
addition. -/
theorem or_chip_r (c : Nat) (hc : c < 4) : s_control_attenuation_r ||| c = 20 + c := by
  have h := Nat.mul_add_lt_is_or (i := 2) (b := c) (by simpa using hc) 5
  simpa [s_control_attenuation_r, Nat.add_comm] using h.symm

/-- Arithmetic reading of `highByte`. -/
theorem highByte_eq (w : Nat) : highByte w = w / 256 % 256 := by
  simp [highByte, Nat.shiftRight_eq_div_pow]

/-- Arithmetic reading of `lowByte`. -/
theorem lowByte_eq (w : Nat) : lowByte w = w % 256 := by
  have h : (0xff : Nat) = 2 ^ 8 - 1 := rfl
  simp only [lowByte]
  rw [h, Nat.and_pow_two_sub_one_eq_mod]
  omega

/-- The attenuation as a natural number, within the volume range. -/
theorem volume_to_attenuation_toNat (v : Int) (hlo : -447 ≤ v) (hhi : v ≤ 0) :
    volume_to_attenuation v = (4096 - 128 * v).toNat := by
  have h := volume_to_attenuation_eq v hlo hhi
  omega

/-- The attenuation is `128 * (32 - v)`: a multiple of 128. -/
theorem volume_to_attenuation_mul (v : Int) (hlo : -447 ≤ v) (hhi : v ≤ 0) :
    volume_to_attenuation v = 128 * (32 - v).toNat := by
  have h := volume_to_attenuation_eq v hlo hhi
  omega

/-- The word of a left attenuation frame is the sum of its three fields. -/
theorem word_attenuation_l (m : Muses72323) (v : Int) (hc : m.chip_address < 4)
    (hlo : -447 ≤ v) (hhi : v ≤ 0) :
    m.word s_control_attenuation_l (volume_to_attenuation v) =
      16 + m.chip_address + 128 * (32 - v).toNat := by
  simp only [Muses72323.word]
  rw [or_chip_l _ hc, volume_to_attenuation_mul v hlo hhi, or_mul_128 _ _ (by omega)]

/-- The word of a right attenuation frame is the sum of its three fields. -/
theorem word_attenuation_r (m : Muses72323) (v : Int) (hc : m.chip_address < 4)
    (hlo : -447 ≤ v) (hhi : v ≤ 0) :
    m.word s_control_attenuation_r (volume_to_attenuation v) =
      20 + m.chip_address + 128 * (32 - v).toNat := by
  simp only [Muses72323.word]
  rw [or_chip_r _ hc, volume_to_attenuation_mul v hlo hhi, or_mul_128 _ _ (by omega)]

/-! ## The volume frames -/

/-- C2: on an object constructed with chip address `a` (whatever its two
shadow registers hold), `setVolume l r` with both volumes in `[-447, 0]`
sends exactly two frames, left then right; their words are
`0x0010 | (a & 3) | (4096 - 128 l)` and `0x0014 | (a & 3) | (4096 - 128 r)`,
each below `2 ^ 16` and sent as high byte then low byte inside one latch
cycle.  The trace does not depend on the shadow registers, so repeating the
call repeats the bytes; with chip address 0 and volume `-447` the words are
61328 and 61332, both carrying the data 61312. -/
theorem C2_setVolume_frames (a gain0 st gn : Nat) (l r : Int)
    (hl : -447 ≤ l) (hl0 : l ≤ 0) (hr : -447 ≤ r) (hr0 : r ≤ 0) :
    Muses72323.setVolume { Muses72323.construct a gain0 with states := st, gain := gn } l r =
      [SpiEvent.beginTransaction, SpiEvent.latch false,
       SpiEvent.xfer (highByte (0x0010 ||| (a &&& 3) ||| (4096 - 128 * l).toNat)),
       SpiEvent.xfer (lowByte (0x0010 ||| (a &&& 3) ||| (4096 - 128 * l).toNat)),
       SpiEvent.latch true, SpiEvent.endTransaction,
       SpiEvent.beginTransaction, SpiEvent.latch false,
       SpiEvent.xfer (highByte (0x0014 ||| (a &&& 3) ||| (4096 - 128 * r).toNat)),
       SpiEvent.xfer (lowByte (0x0014 ||| (a &&& 3) ||| (4096 - 128 * r).toNat)),
       SpiEvent.latch true, SpiEvent.endTransaction] ∧
    (0x0010 ||| (a &&& 3) ||| (4096 - 128 * l).toNat) < 65536 ∧
    (0x0014 ||| (a &&& 3) ||| (4096 - 128 * r).toNat) < 65536 ∧
    highByte (0x0010 ||| (a &&& 3) ||| (4096 - 128 * l).toNat) * 256 +
      lowByte (0x0010 ||| (a &&& 3) ||| (4096 - 128 * l).toNat) =
      (0x0010 ||| (a &&& 3) ||| (4096 - 128 * l).toNat) ∧
    highByte (0x0014 ||| (a &&& 3) ||| (4096 - 128 * r).toNat) * 256 +
      lowByte (0x0014 ||| (a &&& 3) ||| (4096 - 128 * r).toNat) =
      (0x0014 ||| (a &&& 3) ||| (4096 - 128 * r).toNat) ∧
    Muses72323.setVolume { Muses72323.construct a gain0 with states := st, gain := gn } l r =
      Muses72323.setVolume (Muses72323.construct a gain0) l r ∧
    Muses72323.setVolume { Muses72323.construct 0 gain0 with states := st, gain := gn }
        (-447) (-447) =
      [SpiEvent.beginTransaction, SpiEvent.latch false,
       SpiEvent.xfer (highByte 61328), SpiEvent.xfer (lowByte 61328),
       SpiEvent.latch true, SpiEvent.endTransaction,
       SpiEvent.beginTransaction, SpiEvent.latch false,
       SpiEvent.xfer (highByte 61332), SpiEvent.xfer (lowByte 61332),
       SpiEvent.latch true, SpiEvent.endTransaction] ∧
    (0x0010 ||| 0 ||| 61312 = 61328 ∧ 0x0014 ||| 0 ||| 61312 = 61332) := by
  have hc := chip_lt a
  have hwl := word_attenuation_l (Muses72323.construct a gain0) l
    (by simpa [Muses72323.construct, chip_mask] using hc) hl hl0
  have hwr := word_attenuation_r (Muses72323.construct a gain0) r
    (by simpa [Muses72323.construct, chip_mask] using hc) hr hr0
  simp only [Muses72323.word, Muses72323.construct, chip_mask, s_control_attenuation_l,
    s_control_attenuation_r, volume_to_attenuation_toNat l hl hl0,
    volume_to_attenuation_toNat r hr hr0] at hwl hwr
  refine ⟨?_, ?_, ?_, ?_, ?_, ?_, ?_, by decide⟩
  · simp [Muses72323.setVolume, Muses72323.transfer, Muses72323.word, Muses72323.construct,
      chip_mask, s_control_attenuation_l, s_control_attenuation_r,
      volume_to_attenuation_toNat l hl hl0, volume_to_attenuation_toNat r hr hr0]
  · rw [hwl]; omega
  · rw [hwr]; omega
  · rw [highByte_eq, lowByte_eq, hwl]; omega
  · rw [highByte_eq, lowByte_eq, hwr]; omega
  · rfl
  · simp only [Muses72323.setVolume, Muses72323.transfer, Muses72323.word,
      Muses72323.construct]
    decide

/-- C2 at chip address 2, left volume `-447`, right volume `0`. -/
theorem C2_setVolume_frames_witness :
    Muses72323.setVolume { Muses72323.construct 2 0 with states := 512, gain := 0 } (-447) 0 =
      [SpiEvent.beginTransaction, SpiEvent.latch false,
       SpiEvent.xfer 239, SpiEvent.xfer 146,
       SpiEvent.latch true, SpiEvent.endTransaction,
       SpiEvent.beginTransaction, SpiEvent.latch false,
       SpiEvent.xfer 16, SpiEvent.xfer 22,
       SpiEvent.latch true, SpiEvent.endTransaction] :=
  (C2_setVolume_frames 2 0 512 0 (-447) 0 (by decide) (by decide) (by decide) (by decide)).1

/-! ## The clock-select frame -/

/-- Clearing bit 9 or setting bit 9 of a 16-bit value gives the same result
once bit 9 is OR-ed in. -/
theorem or_512_bitWrite (st : Nat) :
    512 ||| bitWrite st s_state_external_clock false =
      512 ||| bitWrite st s_state_external_clock true := by
  simp only [bitWrite, bitClear, bitSet, s_state_external_clock]
  apply Nat.eq_of_testBit_eq
  intro i
  have h0 : ((1 : Nat) <<< 9) % 4294967296 = 2 ^ 9 := rfl
  have h0' : ((1 : Nat) <<< 9) = 2 ^ 9 := rfl
  have h1 : (4294967295 : Nat) = 2 ^ 32 - 1 := rfl
  have h2 : (65536 : Nat) = 2 ^ 16 := rfl
  have h3 : (512 : Nat) = 2 ^ 9 := rfl
  simp only [if_true, Bool.false_eq_true, if_false]
  rw [h0, h0', h1, h2, h3]
  simp only [Nat.testBit_or, Nat.testBit_and, Nat.testBit_xor, Nat.testBit_mod_two_pow,
    Nat.testBit_two_pow_sub_one, Nat.testBit_two_pow]
  by_cases h : 9 = i
  · simp [h]
  · have h9 : ¬ (i = 9) := fun e => h e.symm
    by_cases h16 : i < 16
    · have h32 : i < 32 := by omega
      simp [*]
    · simp [*]

/-- The states select address already contains bit 9. -/
theorem s_control_states_split (c d : Nat) :
    s_control_states ||| c ||| d = 12 ||| c ||| (512 ||| d) := by
  have h : s_control_states = 512 ||| 12 := by decide
  rw [h]
  apply Nat.eq_of_testBit_eq
  intro i
  simp only [Nat.testBit_or]
  cases Nat.testBit 512 i <;> cases Nat.testBit 12 i <;> cases Nat.testBit c i <;>
    cases Nat.testBit d i <;> rfl

/-- C3 (the code at the failing input): whatever the object holds,
`setExternalClock true` and `setExternalClock false` put the same frame on
the bus, and bit 9 of its word is set.  On the object of the program (chip
address 0, shadow 0) `setExternalClock true` clears bit 9 of the shadow and
still sends the word `0x020C`, whose bit 9 is 1. -/
theorem C3_setExternalClock_frame_fixed (m : Muses72323) :
    (m.setExternalClock true).2 = (m.setExternalClock false).2 ∧
    Nat.testBit ((m.setExternalClock true).1.word s_control_states
      (m.setExternalClock true).1.states) s_state_external_clock = true ∧
    ((Muses72323.construct 0 0).setExternalClock true).1.states = 0 ∧
    ((Muses72323.construct 0 0).setExternalClock true).2 =
      [SpiEvent.beginTransaction, SpiEvent.latch false,
       SpiEvent.xfer (highByte 0x020C), SpiEvent.xfer (lowByte 0x020C),
       SpiEvent.latch true, SpiEvent.endTransaction] ∧
    bitRead 0x020C s_state_external_clock = 1 := by
  refine ⟨?_, ?_, by decide, by decide, by decide⟩
  · simp only [Muses72323.setExternalClock, Muses72323.transfer, Muses72323.word,
      Bool.not_true, Bool.not_false]
    rw [s_control_states_split, s_control_states_split, or_512_bitWrite]
  · simp only [Muses72323.setExternalClock, Muses72323.word]
    rw [s_control_states_split]
    have h9 : Nat.testBit 512 9 = true := by decide
    simp [Nat.testBit_or, h9, s_state_external_clock]

/-! ## Address field and data field -/

/-- A value below 128 and a multiple of 128 share no set bit. -/
theorem and_mul_128 (x k : Nat) (hx : x < 128) : x &&& (128 * k) = 0 := by
  apply Nat.eq_of_testBit_eq
  intro i
  have h7 : (128 : Nat) = 2 ^ 7 := rfl
  rw [h7, Nat.testBit_and, Nat.testBit_mul_pow_two, Nat.zero_testBit]
  by_cases hi : 7 ≤ i
  · have hlt : x < 2 ^ i :=
      lt_of_lt_of_le (by simpa using hx) (Nat.pow_le_pow_right (by decide) hi)
    simp [Nat.testBit_lt_two_pow hlt]
  · simp [hi]

/-- In the attenuation frames of `setVolume` the data shares no bit with the
address field, for every object whose chip address is below 4 and every
volume in range. -/
theorem attenuation_data_disjoint (m : Muses72323) (v : Int) (hc : m.chip_address < 4)
    (hlo : -447 ≤ v) (hhi : v ≤ 0) :
    (s_control_attenuation_l ||| m.chip_address) &&& volume_to_attenuation v = 0 ∧
    (s_control_attenuation_r ||| m.chip_address) &&& volume_to_attenuation v = 0 := by
  rw [or_chip_l _ hc, or_chip_r _ hc, volume_to_attenuation_mul v hlo hhi]
  exact ⟨and_mul_128 _ _ (by omega), and_mul_128 _ _ (by omega)⟩

/-- In the gain frames sent from a zero gain shadow (the object of the
program) the data shares no bit with the address field. -/
theorem gain_data_disjoint (a : Nat) (e1 e2 : Bool) :
    (s_control_gain ||| (Muses72323.construct a 0).chip_address) &&&
      ((Muses72323.construct a 0).setZeroCrossingOn e1).1.gain = 0 ∧
    (s_control_gain ||| (Muses72323.construct a 0).chip_address) &&&
      ((Muses72323.construct a 0).setLinkChannels e1).1.gain = 0 ∧
    (s_control_gain ||| (Muses72323.construct a 0).chip_address) &&&
      ((((Muses72323.construct a 0).setZeroCrossingOn e1).1).setLinkChannels e2).1.gain = 0 := by
  have hc := chip_lt a
  simp only [Muses72323.construct, chip_mask, Muses72323.setZeroCrossingOn,
    Muses72323.setLinkChannels, s_control_gain]
  generalize a &&& 3 = c at hc
  interval_cases c <;> cases e1 <;> cases e2 <;> decide

/-- C4 (the code at the failing input): `setExternalClock false`, the call
`setup()` makes, on the object of the program (chip address 0, shadow 0)
sets the shadow to `0x0200` and sends it as the data of a frame whose
address field `s_control_states | chip_address` is `0x020C`: bit 9 belongs
to both.  The word sent is the same as for data 0, so the data cannot be
read back from it. -/
theorem C4_states_data_overlaps_address :
    ((Muses72323.construct 0 0).setExternalClock false).1.states = 0x0200 ∧
    (s_control_states ||| ((Muses72323.construct 0 0).setExternalClock false).1.chip_address)
      = 0x020C ∧
    (s_control_states ||| ((Muses72323.construct 0 0).setExternalClock false).1.chip_address)
      &&& ((Muses72323.construct 0 0).setExternalClock false).1.states = 0x0200 ∧
    (Muses72323.construct 0 0).word s_control_states 0x0200 =
      (Muses72323.construct 0 0).word s_control_states 0 := by
  decide

/-! ## The hard mute -/

/-- C5: on an object constructed with chip address `a`, `mute` sends exactly
two frames with data 0, left then right: the words `0x0010 | (a & 3)` and
`0x0014 | (a & 3)`.  For every volume `v` in `[-447, 0]` the attenuation is
not 0, and neither frame of `setVolume` coincides with a mute frame of any
chip address. -/
theorem C5_mute_frames (a gain0 st gn a1 g1 : Nat) (v : Int)
    (hlo : -447 ≤ v) (hhi : v ≤ 0) :
    Muses72323.mute { Muses72323.construct a gain0 with states := st, gain := gn } =
      [SpiEvent.beginTransaction, SpiEvent.latch false,
       SpiEvent.xfer (highByte (0x0010 ||| (a &&& 3))),
       SpiEvent.xfer (lowByte (0x0010 ||| (a &&& 3))),
       SpiEvent.latch true, SpiEvent.endTransaction,
       SpiEvent.beginTransaction, SpiEvent.latch false,
       SpiEvent.xfer (highByte (0x0014 ||| (a &&& 3))),
       SpiEvent.xfer (lowByte (0x0014 ||| (a &&& 3))),
       SpiEvent.latch true, SpiEvent.endTransaction] ∧
    volume_to_attenuation v ≠ 0 ∧
    (Muses72323.construct a gain0).transfer s_control_attenuation_l (volume_to_attenuation v) ≠
      (Muses72323.construct a1 g1).transfer s_control_attenuation_l 0 ∧
    (Muses72323.construct a gain0).transfer s_control_attenuation_l (volume_to_attenuation v) ≠
      (Muses72323.construct a1 g1).transfer s_control_attenuation_r 0 ∧
    (Muses72323.construct a gain0).transfer s_control_attenuation_r (volume_to_attenuation v) ≠
      (Muses72323.construct a1 g1).transfer s_control_attenuation_l 0 ∧
    (Muses72323.construct a gain0).transfer s_control_attenuation_r (volume_to_attenuation v) ≠
      (Muses72323.construct a1 g1).transfer s_control_attenuation_r 0 := by
  have hc : (Muses72323.construct a gain0).chip_address < 4 := by
    simpa [Muses72323.construct, chip_mask] using chip_lt a
  have hc1 : (Muses72323.construct a1 g1).chip_address < 4 := by
    simpa [Muses72323.construct, chip_mask] using chip_lt a1
  have hwl := word_attenuation_l _ v hc hlo hhi
  have hwr := word_attenuation_r _ v hc hlo hhi
  have hml : (Muses72323.construct a1 g1).word s_control_attenuation_l 0 =
      16 + (Muses72323.construct a1 g1).chip_address := by
    simp only [Muses72323.word, Nat.or_zero]; exact or_chip_l _ hc1
  have hmr : (Muses72323.construct a1 g1).word s_control_attenuation_r 0 =
      20 + (Muses72323.construct a1 g1).chip_address := by
    simp only [Muses72323.word, Nat.or_zero]; exact or_chip_r _ hc1
  have hv := volume_to_attenuation_eq v hlo hhi
  refine ⟨?_, by omega, ?_, ?_, ?_, ?_⟩
  · simp [Muses72323.mute, Muses72323.transfer, Muses72323.word, Muses72323.construct,
      chip_mask, s_control_attenuation_l, s_control_attenuation_r]
  all_goals
    intro h
    simp only [Muses72323.transfer, List.cons.injEq, SpiEvent.xfer.injEq, true_and] at h
    have hb := h.1
    rw [highByte_eq, highByte_eq] at hb
    first
      | rw [hwl, hml] at hb; omega
      | rw [hwl, hmr] at hb; omega
      | rw [hwr, hml] at hb; omega
      | rw [hwr, hmr] at hb; omega

/-- C5 at chip address 1 and the loudest volume. -/
theorem C5_mute_frames_witness :
    Muses72323.mute { Muses72323.construct 1 0 with states := 0, gain := 0 } =
      [SpiEvent.beginTransaction, SpiEvent.latch false,
       SpiEvent.xfer 0, SpiEvent.xfer 17,
       SpiEvent.latch true, SpiEvent.endTransaction,
       SpiEvent.beginTransaction, SpiEvent.latch false,
       SpiEvent.xfer 0, SpiEvent.xfer 21,
       SpiEvent.latch true, SpiEvent.endTransaction] ∧
    volume_to_attenuation 0 ≠ 0 :=
  ⟨(C5_mute_frames 1 0 0 0 1 0 0 (by decide) (by decide)).1,
   (C5_mute_frames 1 0 0 0 1 0 0 (by decide) (by decide)).2.1⟩

/-! ## What the helpers of `main.cpp` leave alone -/

/-- The function `setVolume` writes to the chip, the store and the display
only. -/
theorem setVolume_fields (s : State) :
    (setVolume s).volume = s.volume ∧ (setVolume s).source = s.source ∧
    (setVolume s).oldsource = s.oldsource ∧ (setVolume s).isMuted = s.isMuted ∧
    (setVolume s).state = s.state ∧ (setVolume s).Muses = s.Muses ∧
    (setVolume s).mcp = s.mcp ∧ (setVolume s).milOnButton = s.milOnButton ∧
    (setVolume s).preferences.SOURCE = s.preferences.SOURCE ∧
    (setVolume s).preferences.VOLUME = some s.volume ∧
    (setVolume s).spi = s.spi ++ s.Muses.setVolume s.volume s.volume :=
  ⟨rfl, rfl, rfl, rfl, rfl, rfl, rfl, rfl, rfl, rfl, rfl⟩

/-- The function `setIO` keeps volume, source, mute flag, mode and chip
object; it stores the source and sends attenuation frames only when
muted. -/
theorem setIO_fields (s : State) :
    ( setIO s).volume = s.volume ∧ ( setIO s).source = s.source ∧
    ( setIO s).oldsource = s.oldsource ∧ ( setIO s).isMuted = s.isMuted ∧
    ( setIO s).state = s.state ∧ ( setIO s).Muses = s.Muses ∧
    ( setIO s).milOnButton = s.milOnButton ∧
    ( setIO s).preferences.SOURCE = some s.source ∧
    ( setIO s).spi =
      (if s.isMuted then s.spi ++ s.Muses.setVolume s.volume s.volume else s.spi) := by
  cases h : s.isMuted <;> simp [ setIO, mcpWrite1, setVolume, h]

/-- The function `unMute` clears the mute flag, keeps the volume and the
source, and sends exactly the two frames of `Muses.setVolume(volume,
volume)`. -/
theorem unMute_fields (s : State) :
    (unMute s).volume = s.volume ∧ (unMute s).source = s.source ∧
    (unMute s).isMuted = false ∧ (unMute s).state = s.state ∧
    (unMute s).Muses = s.Muses ∧
    (unMute s).spi = s.spi ++ s.Muses.setVolume s.volume s.volume := by
  simp [unMute, setIO, mcpWrite1, setVolume]

/-- The function `mute` of `main.cpp` sets the mute flag and keeps the
volume and the source. -/
theorem mute_fields (s : State) :
    (mute s).volume = s.volume ∧ (mute s).source = s.source ∧
    (mute s).isMuted = true ∧ (mute s).state = s.state ∧ (mute s).Muses = s.Muses ∧
    (mute s).preferences = s.preferences ∧
    (mute s).spi = s.spi ++ s.Muses.mute :=
  ⟨rfl, rfl, rfl, rfl, rfl, rfl, rfl⟩

/-! ## Volume steps -/

/-- The increase step adds 1 unless the volume is already 0. -/
theorem volumeUp_volume (s : State) (hlo : -447 ≤ s.volume) (hhi : s.volume ≤ 0) :
    (volumeUp s).volume = min (s.volume + 1) 0 := by
  have hu := (unMute_fields s).1
  have hsv : ∀ t : State, (setVolume t).volume = t.volume := fun _ => rfl
  simp only [volumeUp]
  cases hm : s.isMuted <;> simp only [if_true, Bool.false_eq_true, if_false]
  · by_cases h : s.volume < 0
    · simp only [h, if_true, hsv, wrapInt16]; omega
    · simp only [h, if_false]; omega
  · by_cases h : s.volume < 0
    · simp only [hu, h, if_true, hsv, wrapInt16]; omega
    · simp only [hu, h, if_false]; omega

/-- The decrease step subtracts 1 unless the volume is already -447. -/
theorem volumeDown_volume (s : State) (hlo : -447 ≤ s.volume) (hhi : s.volume ≤ 0) :
    (volumeDown s).volume = max (s.volume - 1) (-447) := by
  have hu := (unMute_fields s).1
  have hsv : ∀ t : State, (setVolume t).volume = t.volume := fun _ => rfl
  simp only [volumeDown]
  cases hm : s.isMuted <;> simp only [if_true, Bool.false_eq_true, if_false]
  · by_cases h : s.volume > -447
    · simp only [h, if_true, hsv, wrapInt16]; omega
    · simp only [h, if_false]; omega
  · by_cases h : s.volume > -447
    · simp only [hu, h, if_true, hsv, wrapInt16]; omega
    · simp only [hu, h, if_false]; omega

/-- C6: for every state whose volume `v` is in `[-447, 0]`, a right turn of
the knob in run mode and the remote command 16 at address 0x10 give the
volume `min (v + 1) 0`; a left turn in run mode and the remote command 17
give `max (v - 1) (-447)`.  So the step is 1 inside the range, nothing
happens at the boundary in the direction of the boundary, and the new volume
is again in `[-447, 0]`. -/
theorem C6_volume_clamped (s : State) (now1 now2 toggle : Nat)
    (hlo : -447 ≤ s.volume) (hhi : s.volume ≤ 0) :
    (RotaryUpdate { s with state := STATE_RUN, turnedRightFlag := true } now1 now2).volume =
      min (s.volume + 1) 0 ∧
    (RotaryUpdate { s with state := STATE_RUN, turnedRightFlag := false,
                           turnedLeftFlag := true } now1 now2).volume =
      max (s.volume - 1) (-447) ∧
    (RC5Update s (some { toggle := toggle, address := 0x10, command := 16 })).volume =
      min (s.volume + 1) 0 ∧
    (RC5Update s (some { toggle := toggle, address := 0x10, command := 17 })).volume =
      max (s.volume - 1) (-447) ∧
    (-447 ≤ min (s.volume + 1) 0 ∧ min (s.volume + 1) 0 ≤ 0) ∧
    (-447 ≤ max (s.volume - 1) (-447) ∧ max (s.volume - 1) (-447) ≤ 0) ∧
    min (s.volume + 1) 0 = (if s.volume = 0 then s.volume else s.volume + 1) ∧
    max (s.volume - 1) (-447) = (if s.volume = -447 then s.volume else s.volume - 1) := by
  refine ⟨?_, ?_, ?_, ?_, by omega, by omega, ?_, ?_⟩
  rotate_left 4
  · split <;> omega
  · split <;> omega
  · have h := volumeUp_volume { s with state := STATE_RUN, turnedRightFlag := true } hlo hhi
    simpa [RotaryUpdate, volumeUpdate] using h
  · have h := volumeDown_volume
      { s with state := STATE_RUN, turnedRightFlag := false, turnedLeftFlag := true } hlo hhi
    simpa [RotaryUpdate, volumeUpdate] using h
  · have h := volumeUp_volume s hlo hhi
    simpa [RC5Update] using h
  · have h := volumeDown_volume s hlo hhi
    simpa [RC5Update] using h

/-- C6 on the state after boot with the volume set to `-447`: a left turn
and the remote command 17 leave it at `-447`, a right turn and the remote
command 16 give `-446`. -/
theorem C6_volume_clamped_witness :
    (-447 : Int) ≤ ({ boot ⟨none, none⟩ with volume := -447 } : State).volume ∧
    ({ boot ⟨none, none⟩ with volume := -447 } : State).volume ≤ 0 ∧
    (RotaryUpdate { ({ boot ⟨none, none⟩ with volume := -447 } : State) with
        state := STATE_RUN, turnedRightFlag := true } 0 0).volume = -446 ∧
    (RotaryUpdate { ({ boot ⟨none, none⟩ with volume := -447 } : State) with
        state := STATE_RUN, turnedRightFlag := false, turnedLeftFlag := true } 0 0).volume
      = -447 ∧
    (RC5Update { boot ⟨none, none⟩ with volume := -447 }
      (some { toggle := 1, address := 0x10, command := 16 })).volume = -446 ∧
    (RC5Update { boot ⟨none, none⟩ with volume := -447 }
      (some { toggle := 1, address := 0x10, command := 17 })).volume = -447 :=
  ⟨by decide, by decide,
   (C6_volume_clamped { boot ⟨none, none⟩ with volume := -447 } 0 0 1
      (by decide) (by decide)).1,
   (C6_volume_clamped { boot ⟨none, none⟩ with volume := -447 } 0 0 1
      (by decide) (by decide)).2.1,
   (C6_volume_clamped { boot ⟨none, none⟩ with volume := -447 } 0 0 1
      (by decide) (by decide)).2.2.1,
   (C6_volume_clamped { boot ⟨none, none⟩ with volume := -447 } 0 0 1
      (by decide) (by decide)).2.2.2.1⟩

/-! ## Loading the persisted settings -/

/-- The volume after `setup()`: the stored `int32_t` narrowed to `int16_t`,
replaced by -447 only when it is positive; -447 when nothing is stored. -/
theorem setup_volume (stored : Preferences) :
    (setup (boot stored)).volume =
      (match stored.VOLUME with
       | none => -447
       | some v => if wrapInt16 (wrapInt32 v) > 0 then -447 else wrapInt16 (wrapInt32 v)) := by
  have hio := fun t : State => ( setIO_fields t).1
  have hsv : ∀ t : State, (setVolume t).volume = t.volume := fun _ => rfl
  simp only [setup, loadVolume, loadSource, setupMute, setupZeroCrossing, setupExternalClock,
    setupMusesBegin, setupDisplay, boot, Preferences.getInt, hio, hsv]
  cases hv : stored.VOLUME with
  | none => simp [wrapInt16]
  | some v =>
    by_cases h : wrapInt16 (wrapInt32 v) > 0
    · simp [h]
    · simp [h]

/-- The source after `setup()`: the stored `uint32_t` narrowed to `uint8_t`;
1 when nothing is stored. -/
theorem setup_source (stored : Preferences) :
    (setup (boot stored)).source =
      (match stored.SOURCE with
       | none => 1
       | some v => v % 256) := by
  have hio := fun t : State => ( setIO_fields t).2.1
  have hsv : ∀ t : State, (setVolume t).source = t.source := fun _ => rfl
  simp only [setup, loadVolume, loadSource, setupMute, setupZeroCrossing, setupExternalClock,
    setupMusesBegin, setupDisplay, boot, Preferences.getUInt, hio, hsv]
  cases hv : stored.SOURCE <;> split <;> dsimp only [toUInt8] <;> omega

/-- Where the volume load behaves as a range check: nothing stored gives
-447, a stored value in `[-447, 0]` is kept, a stored value in `[1, 32767]`
gives -447. -/
theorem setup_volume_checked (src : Option Nat) (v : Int) :
    (setup (boot ⟨none, src⟩)).volume = -447 ∧
    (-447 ≤ v → v ≤ 0 → (setup (boot ⟨some v, src⟩)).volume = v) ∧
    (1 ≤ v → v ≤ 32767 → (setup (boot ⟨some v, src⟩)).volume = -447) := by
  refine ⟨by rw [setup_volume], ?_, ?_⟩
  · intro h1 h2
    rw [setup_volume]
    simp only [wrapInt16, wrapInt32]
    split <;> omega
  · intro h1 h2
    rw [setup_volume]
    simp only [wrapInt16, wrapInt32]
    split <;> omega

/-- C7 (the code at the failing input): with the stored volume -448, below
the range, `setup()` keeps -448: the only test is `volume > 0`.  The volume
after setup is then outside `[-447, 0]`, and the frames sent carry the
attenuation 61440. -/
theorem C7_setup_keeps_volume_below_range :
    (setup (boot ⟨some (-448), none⟩)).volume = -448 ∧
    ¬ (-447 ≤ (setup (boot ⟨some (-448), none⟩)).volume) ∧
    (setup (boot ⟨some (-448), none⟩)).preferences.VOLUME = some (-448) ∧
    volume_to_attenuation (setup (boot ⟨some (-448), none⟩)).volume = 61440 := by
  decide

/-- C8 (the code at the failing input): with the stored source 5 `setup()`
loads 5 without any test; the name table is read at index 4 and the routing
line written high is line 4. -/
theorem C8_setup_keeps_source_out_of_range :
    (setup (boot ⟨none, some 5⟩)).source = 5 ∧
    ¬ ((setup (boot ⟨none, some 5⟩)).source ≤ 4) ∧
    (setup (boot ⟨none, some 5⟩)).mcp = [(0, false), (4, true)] ∧
    (setup (boot ⟨none, some 5⟩)).display.getLast? = some DisplayEvent.sendBuffer ∧
    DisplayEvent.drawStr 0 45 (DisplayText.inputName 4) ∈
      (setup (boot ⟨none, some 5⟩)).display ∧
    (setup (boot ⟨none, some 0⟩)).source = 0 := by
  decide

/-- Where the source load is in range: nothing stored gives 1, a stored
value in `1..4` is kept, and then `source - 1` is in `0..3`. -/
theorem setup_source_in_range (vol : Option Int) (n : Nat) :
    (setup (boot ⟨vol, none⟩)).source = 1 ∧
    (1 ≤ n → n ≤ 4 → (setup (boot ⟨vol, some n⟩)).source = n) := by
  refine ⟨by rw [setup_source], ?_⟩
  intro h1 h4
  rw [setup_source]
  show n % 256 = n
  omega

/-! ## Source selection with the knob -/

/-- A pending right turn in `sourceUpdate`: the source goes up by one, or
to 1 when it was 4 or more; the new source is stored, the time stamp is
renewed and the flag is cleared. -/
theorem sourceUpdate_right (s : State) (now : Nat) (h : s.turnedRightFlag = true) :
    (sourceUpdate s now).source = (if s.source < 4 then (s.source + 1) % 256 else 1) ∧
    (sourceUpdate s now).preferences.SOURCE = some (sourceUpdate s now).source ∧
    (sourceUpdate s now).oldsource = s.source ∧
    (sourceUpdate s now).milOnButton = now % 4294967296 ∧
    (sourceUpdate s now).state = s.state ∧
    (sourceUpdate s now).turnedRightFlag = false := by
  have hio := fun t : State => setIO_fields t
  by_cases h4 : s.source < 4 <;> simp [sourceUpdate, h, h4, hio]

/-- A pending left turn in `sourceUpdate`: the source goes down by one, or
to 4 when it was 1 or less; the new source is stored, the time stamp is
renewed and the flag is cleared. -/
theorem sourceUpdate_left (s : State) (now : Nat) (hr : s.turnedRightFlag = false)
    (h : s.turnedLeftFlag = true) :
    (sourceUpdate s now).source =
      (if s.source > 1 then toUInt8 ((s.source : Int) - 1) else 4) ∧
    (sourceUpdate s now).preferences.SOURCE = some (sourceUpdate s now).source ∧
    (sourceUpdate s now).oldsource = s.source ∧
    (sourceUpdate s now).milOnButton = now % 4294967296 ∧
    (sourceUpdate s now).state = s.state ∧
    (sourceUpdate s now).turnedLeftFlag = false := by
  have hio := fun t : State => setIO_fields t
  by_cases h1 : s.source > 1 <;> simp [sourceUpdate, h, hr, h1, hio]

/-- In input-select mode `RotaryUpdate` changes the source and the store
exactly as `sourceUpdate` does. -/
theorem RotaryUpdate_select (s : State) (now1 now2 : Nat) (h : s.state = STATE_IO) :
    (RotaryUpdate s now1 now2).source = (sourceUpdate s now1).source ∧
    (RotaryUpdate s now1 now2).preferences = (sourceUpdate s now1).preferences := by
  simp only [RotaryUpdate, h]
  have h10 : ¬ ( STATE_IO = STATE_RUN) := by decide
  simp only [h10, if_false, if_true]
  split <;> exact ⟨rfl, rfl⟩

/-- C9: for every state with source `n` in `1..4`, a right turn handled by
`sourceUpdate` gives `n + 1` (1 from 4), a left turn gives `n - 1` (4 from
1); the result is in `1..4`; a right turn followed by a left turn, and a left
turn followed by a right turn, return to `n`; each turn stores the new source
under `SOURCE` in the same call; and `RotaryUpdate` in input-select mode
does exactly this. -/
theorem C9_source_cycle (s : State) (now now2 : Nat)
    (h1 : 1 ≤ s.source) (h4 : s.source ≤ 4) :
    (sourceUpdate { s with turnedRightFlag := true } now).source =
      (if s.source = 4 then 1 else s.source + 1) ∧
    (sourceUpdate { s with turnedRightFlag := false, turnedLeftFlag := true } now).source =
      (if s.source = 1 then 4 else s.source - 1) ∧
    (1 ≤ (sourceUpdate { s with turnedRightFlag := true } now).source ∧
      (sourceUpdate { s with turnedRightFlag := true } now).source ≤ 4) ∧
    (1 ≤ (sourceUpdate { s with turnedRightFlag := false, turnedLeftFlag := true } now).source ∧
      (sourceUpdate { s with turnedRightFlag := false, turnedLeftFlag := true } now).source
        ≤ 4) ∧
    (sourceUpdate { (sourceUpdate { s with turnedRightFlag := true } now) with
        turnedRightFlag := false, turnedLeftFlag := true } now2).source = s.source ∧
    (sourceUpdate { (sourceUpdate { s with turnedRightFlag := false, turnedLeftFlag := true } now)
        with turnedRightFlag := true } now2).source = s.source ∧
    (sourceUpdate { s with turnedRightFlag := true } now).preferences.SOURCE =
      some (if s.source = 4 then 1 else s.source + 1) ∧
    (sourceUpdate { s with turnedRightFlag := false, turnedLeftFlag := true }
        now).preferences.SOURCE =
      some (if s.source = 1 then 4 else s.source - 1) ∧
    (RotaryUpdate { s with state := STATE_IO, turnedRightFlag := true } now now2).source =
      (if s.source = 4 then 1 else s.source + 1) ∧
    (RotaryUpdate { s with state := STATE_IO, turnedRightFlag := true }
        now now2).preferences.SOURCE =
      some (if s.source = 4 then 1 else s.source + 1) ∧
    (RotaryUpdate { s with state := STATE_IO, turnedRightFlag := false,
                           turnedLeftFlag := true } now now2).source =
      (if s.source = 1 then 4 else s.source - 1) ∧
    (RotaryUpdate { s with state := STATE_IO, turnedRightFlag := false,
                           turnedLeftFlag := true } now now2).preferences.SOURCE =
      some (if s.source = 1 then 4 else s.source - 1) := by
  have hup := sourceUpdate_right { s with turnedRightFlag := true } now rfl
  have hdn := sourceUpdate_left { s with turnedRightFlag := false, turnedLeftFlag := true }
    now rfl rfl
  have eup : (sourceUpdate { s with turnedRightFlag := true } now).source =
      (if s.source = 4 then 1 else s.source + 1) := by
    have e := hup.1
    dsimp only at e
    rw [e]
    split <;> split <;> omega
  have edn : (sourceUpdate { s with turnedRightFlag := false, turnedLeftFlag := true }
      now).source = (if s.source = 1 then 4 else s.source - 1) := by
    have e := hdn.1
    dsimp only [toUInt8] at e
    rw [e]
    split <;> split <;> omega
  have hup2 := sourceUpdate_left
    { (sourceUpdate { s with turnedRightFlag := true } now) with
        turnedRightFlag := false, turnedLeftFlag := true } now2 rfl rfl
  have hdn2 := sourceUpdate_right
    { (sourceUpdate { s with turnedRightFlag := false, turnedLeftFlag := true } now)
        with turnedRightFlag := true } now2 rfl
  have hru := RotaryUpdate_select { s with state := STATE_IO, turnedRightFlag := true }
    now now2 rfl
  have hrd := RotaryUpdate_select
    { s with state := STATE_IO, turnedRightFlag := false, turnedLeftFlag := true }
    now now2 rfl
  have hup' := sourceUpdate_right { s with state := STATE_IO, turnedRightFlag := true } now rfl
  have hdn' := sourceUpdate_left
    { s with state := STATE_IO, turnedRightFlag := false, turnedLeftFlag := true } now rfl rfl
  dsimp only at hup hdn hup2 hdn2 hup' hdn'
  refine ⟨eup, edn, ?_, ?_, ?_, ?_, ?_, ?_, ?_, ?_, ?_, ?_⟩
  · rw [eup]; split <;> omega
  · rw [edn]; split <;> omega
  · rw [hup2.1]
    show (if (sourceUpdate { s with turnedRightFlag := true } now).source > 1 then
      toUInt8 (((sourceUpdate { s with turnedRightFlag := true } now).source : Int) - 1)
      else 4) = s.source
    rw [eup]; simp only [toUInt8]
    split <;> split <;> omega
  · rw [hdn2.1]
    show (if (sourceUpdate { s with turnedRightFlag := false, turnedLeftFlag := true }
      now).source < 4 then
      ((sourceUpdate { s with turnedRightFlag := false, turnedLeftFlag := true }
      now).source + 1) % 256 else 1) = s.source
    rw [edn]
    split <;> split <;> omega
  · rw [hup.2.1, eup]
  · rw [hdn.2.1, edn]
  · rw [hru.1, hup'.1]; show (if s.source < 4 then _ else _) = _
    split <;> split <;> omega
  · rw [hru.2, hup'.2.1, hup'.1]; show some (if s.source < 4 then _ else _) = _
    congr 1
    split <;> split <;> omega
  · rw [hrd.1, hdn'.1]; show (if s.source > 1 then toUInt8 ((s.source : Int) - 1) else _) = _
    simp only [toUInt8]
    split <;> split <;> omega
  · rw [hrd.2, hdn'.2.1, hdn'.1]
    show some (if s.source > 1 then toUInt8 ((s.source : Int) - 1) else _) = _
    congr 1
    simp only [toUInt8]
    split <;> split <;> omega

/-- C9 on the state after boot with source 4: a right turn gives 1 and
stores 1; with source 1 a left turn gives 4. -/
theorem C9_source_cycle_witness :
    1 ≤ ({ boot ⟨none, none⟩ with source := 4 } : State).source ∧
    ({ boot ⟨none, none⟩ with source := 4 } : State).source ≤ 4 ∧
    (sourceUpdate { ({ boot ⟨none, none⟩ with source := 4 } : State) with
        turnedRightFlag := true } 100).source = 1 ∧
    (sourceUpdate { ({ boot ⟨none, none⟩ with source := 4 } : State) with
        turnedRightFlag := true } 100).preferences.SOURCE = some 1 ∧
    (sourceUpdate { ({ boot ⟨none, none⟩ with source := 1 } : State) with
        turnedRightFlag := false, turnedLeftFlag := true } 100).source = 4 :=
  ⟨by decide, by decide,
   (C9_source_cycle { boot ⟨none, none⟩ with source := 4 } 100 200
      (by decide) (by decide)).1,
   (C9_source_cycle { boot ⟨none, none⟩ with source := 4 } 100 200
      (by decide) (by decide)).2.2.2.2.2.2.1,
   (C9_source_cycle { boot ⟨none, none⟩ with source := 1 } 100 200
      (by decide) (by decide)).2.1⟩

/-! ## Mute and unmute -/

/-- C10: for every state, `mute` leaves the volume (in memory and in the
store) as it is; `mute` followed by `unMute` ends with the same volume and
`isMuted = false`; the bus trace of `unMute` is the trace before it followed
by exactly the two frames `Muses.setVolume(volume, volume)` sends, the same
frames the `setVolume` of `main.cpp` sends; and from an unmuted state
`toggleMute` twice is `mute` then `unMute`. -/
theorem C10_mute_unmute_round_trip (s : State) :
    (unMute (mute s)).volume = s.volume ∧
    (unMute (mute s)).isMuted = false ∧
    (mute s).volume = s.volume ∧
    (mute s).preferences = s.preferences ∧
    (unMute (mute s)).spi = (mute s).spi ++ s.Muses.setVolume s.volume s.volume ∧
    (unMute s).spi = s.spi ++ s.Muses.setVolume s.volume s.volume ∧
    (setVolume s).spi = s.spi ++ s.Muses.setVolume s.volume s.volume ∧
    toggleMute (toggleMute { s with isMuted := false }) =
      unMute (mute { s with isMuted := false }) ∧
    (toggleMute (toggleMute { s with isMuted := false })).volume = s.volume ∧
    (toggleMute (toggleMute { s with isMuted := false })).isMuted = false := by
  have hu := unMute_fields (mute s)
  have hm := mute_fields s
  have ht : toggleMute (toggleMute { s with isMuted := false }) =
      unMute (mute { s with isMuted := false }) := by
    simp [toggleMute, mute]
  refine ⟨?_, hu.2.2.1, rfl, rfl, ?_, (unMute_fields s).2.2.2.2.2, rfl, ht, ?_, ?_⟩
  · rw [hu.1]; rfl
  · rw [hu.2.2.2.2.2, hm.2.2.2.2.1, hm.1]
  · rw [ht, (unMute_fields _).1]; rfl
  · rw [ht, (unMute_fields _).2.2.1]

/-! ## Source changes while muted -/

/-- What a source selection does besides changing the source: the mute flag,
the volume, the mode, the time stamp and the chip object stay, and the
attenuation frames of the current volume are sent when the mute flag is
set. -/
theorem selectSource_fields (s : State) (n : Nat) :
    (selectSource s n).source = n ∧ (selectSource s n).oldsource = s.source ∧
    (selectSource s n).isMuted = s.isMuted ∧ (selectSource s n).volume = s.volume ∧
    (selectSource s n).state = s.state ∧ (selectSource s n).Muses = s.Muses ∧
    (selectSource s n).milOnButton = s.milOnButton ∧
    (selectSource s n).preferences.SOURCE = some n ∧
    (selectSource s n).spi =
      (if s.isMuted then s.spi ++ s.Muses.setVolume s.volume s.volume else s.spi) := by
  have h := setIO_fields { s with oldsource := s.source, source := n }
  dsimp only at h
  obtain ⟨hv, hs, ho, hm, hst, hM, hmil, hp, hspi⟩ := h
  exact ⟨hs, ho, hm, hv, hst, hM, hmil, hp, hspi⟩

/-- What a pending turn handled by `sourceUpdate` does besides changing the
source. -/
theorem sourceUpdate_turn_fields (s : State) (now : Nat)
    (h : s.turnedRightFlag = true ∨ s.turnedLeftFlag = true) :
    (sourceUpdate s now).isMuted = s.isMuted ∧ (sourceUpdate s now).volume = s.volume ∧
    (sourceUpdate s now).Muses = s.Muses ∧
    (sourceUpdate s now).spi =
      (if s.isMuted then s.spi ++ s.Muses.setVolume s.volume s.volume else s.spi) := by
  have hio := fun t : State => setIO_fields t
  cases hr : s.turnedRightFlag
  · have hl : s.turnedLeftFlag = true := by simpa [hr] using h
    by_cases h1 : s.source > 1 <;> simp [sourceUpdate, hr, hl, h1, hio]
  · by_cases h4 : s.source < 4 <;> simp [sourceUpdate, hr, h4, hio]

/-- In input-select mode `RotaryUpdate` differs from `sourceUpdate` in the
mode only. -/
theorem RotaryUpdate_select_fields (s : State) (now1 now2 : Nat) (h : s.state = STATE_IO) :
    (RotaryUpdate s now1 now2).isMuted = (sourceUpdate s now1).isMuted ∧
    (RotaryUpdate s now1 now2).volume = (sourceUpdate s now1).volume ∧
    (RotaryUpdate s now1 now2).spi = (sourceUpdate s now1).spi ∧
    (RotaryUpdate s now1 now2).mcp = (sourceUpdate s now1).mcp ∧
    (RotaryUpdate s now1 now2).oldsource = (sourceUpdate s now1).oldsource ∧
    (RotaryUpdate s now1 now2).milOnButton = (sourceUpdate s now1).milOnButton := by
  simp only [RotaryUpdate, h]
  have h10 : ¬ ( STATE_IO = STATE_RUN) := by decide
  simp only [h10, if_false, if_true]
  split <;> exact ⟨rfl, rfl, rfl, rfl, rfl, rfl⟩

/-- C11 (the code at the failing input): muted at volume -100 with source 1,
a right turn in input-select mode leaves `isMuted` true but sends the
attenuation frames of the volume, words `0x4210` and `0x4214` with data
16896, not the mute frames with data 0. -/
theorem C11_source_change_sends_volume_frames :
    (RotaryUpdate { boot ⟨none, none⟩ with
        isMuted := true, volume := -100, source := 1, state := STATE_IO,
        turnedRightFlag := true } 0 0).isMuted = true ∧
    (RotaryUpdate { boot ⟨none, none⟩ with
        isMuted := true, volume := -100, source := 1, state := STATE_IO,
        turnedRightFlag := true } 0 0).spi =
      [SpiEvent.beginTransaction, SpiEvent.latch false,
       SpiEvent.xfer 0x42, SpiEvent.xfer 0x10,
       SpiEvent.latch true, SpiEvent.endTransaction,
       SpiEvent.beginTransaction, SpiEvent.latch false,
       SpiEvent.xfer 0x42, SpiEvent.xfer 0x14,
       SpiEvent.latch true, SpiEvent.endTransaction] ∧
    (0x4210 = s_control_attenuation_l ||| 0 ||| volume_to_attenuation (-100)) ∧
    volume_to_attenuation (-100) = 16896 ∧
    (RotaryUpdate { boot ⟨none, none⟩ with
        isMuted := true, volume := -100, source := 1, state := STATE_IO,
        turnedRightFlag := true } 0 0).spi ≠ (boot ⟨none, none⟩).Muses.mute ∧
    (RotaryUpdate { boot ⟨none, none⟩ with
        isMuted := true, volume := -100, source := 1, state := STATE_IO,
        turnedRightFlag := true } 0 0).spi ≠ [] := by
  decide

/-- What the code does on a source change while muted, in general: for
every state with `isMuted = true`, a turn of the knob
in input-select mode and a remote source-select frame (address 0x10, command
1, 3, 7 or 8) with a fresh toggle bit leave `isMuted` true and the volume
unchanged, and send exactly the two attenuation frames of
`Muses.setVolume(volume, volume)`; for a volume in `[-447, 0]` their data is
at least 4096, so not the data 0 of the hard mute. -/
theorem source_change_while_muted (s : State) (now1 now2 toggle command : Nat)
    (hm : s.isMuted = true)
    (hcmd : command = 1 ∨ command = 3 ∨ command = 7 ∨ command = 8)
    (hfresh : s.oldtoggle ≠ toggle) (hlo : -447 ≤ s.volume) (hhi : s.volume ≤ 0) :
    ((RotaryUpdate { s with state := STATE_IO, turnedRightFlag := true } now1 now2).isMuted
        = true ∧
      (RotaryUpdate { s with state := STATE_IO, turnedRightFlag := true } now1 now2).volume
        = s.volume ∧
      (RotaryUpdate { s with state := STATE_IO, turnedRightFlag := true } now1 now2).spi
        = s.spi ++ s.Muses.setVolume s.volume s.volume) ∧
    ((RotaryUpdate { s with state := STATE_IO, turnedRightFlag := false,
                            turnedLeftFlag := true } now1 now2).isMuted = true ∧
      (RotaryUpdate { s with state := STATE_IO, turnedRightFlag := false,
                             turnedLeftFlag := true } now1 now2).volume = s.volume ∧
      (RotaryUpdate { s with state := STATE_IO, turnedRightFlag := false,
                             turnedLeftFlag := true } now1 now2).spi
        = s.spi ++ s.Muses.setVolume s.volume s.volume) ∧
    ((RC5Update s (some { toggle := toggle, address := 0x10, command := command })).isMuted
        = true ∧
      (RC5Update s (some { toggle := toggle, address := 0x10, command := command })).volume
        = s.volume ∧
      (RC5Update s (some { toggle := toggle, address := 0x10, command := command })).spi
        = s.spi ++ s.Muses.setVolume s.volume s.volume) ∧
    4096 ≤ volume_to_attenuation s.volume := by
  have hatt := volume_to_attenuation_eq s.volume hlo hhi
  have hr := RotaryUpdate_select_fields { s with state := STATE_IO, turnedRightFlag := true }
    now1 now2 rfl
  have hr' := sourceUpdate_turn_fields { s with state := STATE_IO, turnedRightFlag := true }
    now1 (Or.inl rfl)
  have hl := RotaryUpdate_select_fields
    { s with state := STATE_IO, turnedRightFlag := false, turnedLeftFlag := true }
    now1 now2 rfl
  have hl' := sourceUpdate_turn_fields
    { s with state := STATE_IO, turnedRightFlag := false, turnedLeftFlag := true }
    now1 (Or.inr rfl)
  refine ⟨⟨?_, ?_, ?_⟩, ⟨?_, ?_, ?_⟩, ?_, by omega⟩
  · rw [hr.1, hr'.1]; exact hm
  · rw [hr.2.1, hr'.2.1]
  · rw [hr.2.2.1, hr'.2.2.2]; exact if_pos hm
  · rw [hl.1, hl'.1]; exact hm
  · rw [hl.2.1, hl'.2.1]
  · rw [hl.2.2.1, hl'.2.2.2]; exact if_pos hm
  · have hs := fun n => selectSource_fields s n
    rcases hcmd with h | h | h | h <;> subst h <;>
      simp [RC5Update, hfresh, hs, hm]

/-- On a state muted at volume -100 with source 1 and stored toggle 0: the
remote frame (1, 0x10, 3) keeps `isMuted` and sends the attenuation
frames of the volume. -/
theorem source_change_while_muted_example :
    ({ boot ⟨none, none⟩ with isMuted := true, volume := -100, source := 1 } : State).isMuted
      = true ∧
    ((3 : Nat) = 1 ∨ (3 : Nat) = 3 ∨ (3 : Nat) = 7 ∨ (3 : Nat) = 8) ∧
    ({ boot ⟨none, none⟩ with isMuted := true, volume := -100, source := 1 } : State).oldtoggle
      ≠ 1 ∧
    (RC5Update { boot ⟨none, none⟩ with isMuted := true, volume := -100, source := 1 }
      (some { toggle := 1, address := 0x10, command := 3 })).isMuted = true ∧
    (RC5Update { boot ⟨none, none⟩ with isMuted := true, volume := -100, source := 1 }
      (some { toggle := 1, address := 0x10, command := 3 })).spi =
      [] ++ (Muses72323.construct 0 0).setVolume (-100) (-100) ∧
    4096 ≤ volume_to_attenuation (-100) :=
  ⟨rfl, by decide, by decide,
   (source_change_while_muted
      { boot ⟨none, none⟩ with isMuted := true, volume := -100, source := 1 } 0 0 1 3
      rfl (by decide) (by decide) (by decide) (by decide)).2.2.1.1,
   (source_change_while_muted
      { boot ⟨none, none⟩ with isMuted := true, volume := -100, source := 1 } 0 0 1 3
      rfl (by decide) (by decide) (by decide) (by decide)).2.2.1.2.2,
   (source_change_while_muted
      { boot ⟨none, none⟩ with isMuted := true, volume := -100, source := 1 } 0 0 1 3
      rfl (by decide) (by decide) (by decide) (by decide)).2.2.2⟩

/-! ## The toggle bit of the remote -/

/-- Writing to `oldtoggle` the value it already holds changes nothing. -/
theorem oldtoggle_same (t : State) (x : Nat) (h : t.oldtoggle = x) :
    { t with oldtoggle := x } = t := by
  subst h; rfl

/-- A source-select frame whose toggle bit equals the stored one changes
nothing at all. -/
theorem RC5Update_stale_select (s : State) (toggle command : Nat)
    (hcmd : command = 1 ∨ command = 3 ∨ command = 7 ∨ command = 8)
    (h : s.oldtoggle = toggle) :
    RC5Update s (some { toggle := toggle, address := 0x10, command := command }) = s := by
  rcases hcmd with hc | hc | hc | hc <;> subst hc <;>
    simp [RC5Update, h, oldtoggle_same s toggle h]

/-- A source-select frame whose toggle bit differs from the stored one
selects the source of its command, writes the two routing lines, stores the
source and records the toggle bit. -/
theorem RC5Update_fresh_select (s : State) (toggle command : Nat)
    (hcmd : command = 1 ∨ command = 3 ∨ command = 7 ∨ command = 8)
    (h : s.oldtoggle ≠ toggle) :
    RC5Update s (some { toggle := toggle, address := 0x10, command := command }) =
      { selectSource s (if command = 1 then 1 else if command = 3 then 4
          else if command = 7 then 3 else 2) with oldtoggle := toggle } := by
  rcases hcmd with hc | hc | hc | hc <;> subst hc <;> simp [RC5Update, h]

/-- C12 (counterexample): right after `setup()` with an empty store the
stored toggle bit is 0 and the source is 1; the Tuner frame (0, 0x10, 3)
received twice selects nothing: after the first and after the second frame
the source is still 1 and no routing line was written beyond those of
`setup()`. -/
theorem C12_first_frame_after_boot_dropped :
    (setup (boot ⟨none, none⟩)).oldtoggle = 0 ∧
    (setup (boot ⟨none, none⟩)).source = 1 ∧
    (RC5Update (setup (boot ⟨none, none⟩))
      (some { toggle := 0, address := 0x10, command := 3 })).source = 1 ∧
    (RC5Update (RC5Update (setup (boot ⟨none, none⟩))
      (some { toggle := 0, address := 0x10, command := 3 }))
      (some { toggle := 0, address := 0x10, command := 3 })).source = 1 ∧
    (RC5Update (RC5Update (setup (boot ⟨none, none⟩))
      (some { toggle := 0, address := 0x10, command := 3 }))
      (some { toggle := 0, address := 0x10, command := 3 })).mcp =
      (setup (boot ⟨none, none⟩)).mcp ∧
    (RC5Update (RC5Update (setup (boot ⟨none, none⟩))
      (some { toggle := 0, address := 0x10, command := 3 }))
      (some { toggle := 0, address := 0x10, command := 3 })).preferences.SOURCE = some 1 := by
  decide

/-- C12 (amended): for every state whose stored toggle bit differs from the
toggle bit of a source-select frame (address 0x10, command 1, 3, 7 or 8),
receiving the frame twice in a row selects once: the first frame sets the
source of the command (1 -> 1, 8 -> 2, 7 -> 3, 3 -> 4), keeps the previous
source in `oldsource`, writes the two routing lines and stores the source;
the second frame changes nothing.  When the stored toggle bit equals that of
the frame, as for a toggle bit 0 right after boot, the frame changes
nothing. -/
theorem C12_select_once (s : State) (toggle command : Nat)
    (hcmd : command = 1 ∨ command = 3 ∨ command = 7 ∨ command = 8)
    (hfresh : s.oldtoggle ≠ toggle) :
    (RC5Update s (some { toggle := toggle, address := 0x10, command := command })).source =
      (if command = 1 then 1 else if command = 3 then 4 else if command = 7 then 3 else 2) ∧
    (RC5Update s (some { toggle := toggle, address := 0x10, command := command })).oldsource =
      s.source ∧
    (RC5Update s (some { toggle := toggle, address := 0x10, command := command
                       })).preferences.SOURCE =
      some (if command = 1 then 1 else if command = 3 then 4
        else if command = 7 then 3 else 2) ∧
    (RC5Update s (some { toggle := toggle, address := 0x10, command := command })).mcp =
      s.mcp ++ [(toUInt8 ((s.source : Int) - 1), false),
        (toUInt8 (((if command = 1 then 1 else if command = 3 then 4
          else if command = 7 then 3 else 2 : Nat) : Int) - 1), true)] ∧
    (RC5Update s (some { toggle := toggle, address := 0x10, command := command })).oldtoggle =
      toggle ∧
    RC5Update (RC5Update s (some { toggle := toggle, address := 0x10, command := command }))
        (some { toggle := toggle, address := 0x10, command := command }) =
      RC5Update s (some { toggle := toggle, address := 0x10, command := command }) ∧
    RC5Update { s with oldtoggle := toggle }
        (some { toggle := toggle, address := 0x10, command := command }) =
      { s with oldtoggle := toggle } := by
  have hf := RC5Update_fresh_select s toggle command hcmd hfresh
  have hs := selectSource_fields s
    (if command = 1 then 1 else if command = 3 then 4 else if command = 7 then 3 else 2)
  have ht : (RC5Update s
      (some { toggle := toggle, address := 0x10, command := command })).oldtoggle = toggle := by
    rw [hf]
  refine ⟨?_, ?_, ?_, ?_, ht, ?_, ?_⟩
  · rw [hf]; exact hs.1
  · rw [hf]; exact hs.2.1
  · rw [hf]; exact hs.2.2.2.2.2.2.2.1
  · rw [hf]
    cases hm : s.isMuted <;> simp [selectSource, setIO, mcpWrite1, setVolume, hm]
  · exact RC5Update_stale_select _ toggle command hcmd ht
  · exact RC5Update_stale_select _ toggle command hcmd rfl

/-- C12 on the state after `setup()` with an empty store: the Tuner frame
with toggle bit 1 selects source 4 once. -/
theorem C12_select_once_witness :
    ((3 : Nat) = 1 ∨ (3 : Nat) = 3 ∨ (3 : Nat) = 7 ∨ (3 : Nat) = 8) ∧
    (setup (boot ⟨none, none⟩)).oldtoggle ≠ 1 ∧
    (RC5Update (setup (boot ⟨none, none⟩))
      (some { toggle := 1, address := 0x10, command := 3 })).source = 4 ∧
    RC5Update (RC5Update (setup (boot ⟨none, none⟩))
        (some { toggle := 1, address := 0x10, command := 3 }))
        (some { toggle := 1, address := 0x10, command := 3 }) =
      RC5Update (setup (boot ⟨none, none⟩))
        (some { toggle := 1, address := 0x10, command := 3 }) :=
  ⟨by decide, by decide,
   (C12_select_once (setup (boot ⟨none, none⟩)) 1 3 (by decide) (by decide)).1,
   (C12_select_once (setup (boot ⟨none, none⟩)) 1 3 (by decide) (by decide)).2.2.2.2.2.1⟩

/-! ## Repeating remote commands -/

/-- The volume-up frame runs the increase step whatever the toggle bits. -/
theorem RC5Update_volume_up (s : State) (toggle : Nat) :
    RC5Update s (some { toggle := toggle, address := 0x10, command := 16 }) =
      { volumeUp s with oldtoggle := toggle } := by
  simp [RC5Update]

/-- The volume-down frame runs the decrease step whatever the toggle bits. -/
theorem RC5Update_volume_down (s : State) (toggle : Nat) :
    RC5Update s (some { toggle := toggle, address := 0x10, command := 17 }) =
      { volumeDown s with oldtoggle := toggle } := by
  simp [RC5Update]

/-- C13: for every state with volume `v` in `[-447, 0]` and every toggle
bit, the frames (toggle, 0x10, 16) and (toggle, 0x10, 17) apply the clamped
step, also when the stored toggle bit equals the toggle bit of the frame;
the same frame received twice in a row steps twice, to `min (v + 2) 0` and
`max (v - 2) (-447)`, which is `v + 2` for `v ≤ -2`. -/
theorem C13_volume_frames_ignore_toggle (s : State) (toggle : Nat)
    (hlo : -447 ≤ s.volume) (hhi : s.volume ≤ 0) :
    (RC5Update s (some { toggle := toggle, address := 0x10, command := 16 })).volume =
      min (s.volume + 1) 0 ∧
    (RC5Update { s with oldtoggle := toggle }
      (some { toggle := toggle, address := 0x10, command := 16 })).volume =
      min (s.volume + 1) 0 ∧
    (RC5Update s (some { toggle := toggle, address := 0x10, command := 17 })).volume =
      max (s.volume - 1) (-447) ∧
    (RC5Update { s with oldtoggle := toggle }
      (some { toggle := toggle, address := 0x10, command := 17 })).volume =
      max (s.volume - 1) (-447) ∧
    (RC5Update (RC5Update s (some { toggle := toggle, address := 0x10, command := 16 }))
      (some { toggle := toggle, address := 0x10, command := 16 })).volume =
      min (s.volume + 2) 0 ∧
    (RC5Update (RC5Update s (some { toggle := toggle, address := 0x10, command := 17 }))
      (some { toggle := toggle, address := 0x10, command := 17 })).volume =
      max (s.volume - 2) (-447) ∧
    min (s.volume + 2) 0 = (if s.volume ≤ -2 then s.volume + 2 else 0) := by
  have hu := volumeUp_volume s hlo hhi
  have hd := volumeDown_volume s hlo hhi
  have hu1 : (RC5Update s (some { toggle := toggle, address := 0x10, command := 16 })).volume =
      min (s.volume + 1) 0 := by rw [RC5Update_volume_up]; exact hu
  have hd1 : (RC5Update s (some { toggle := toggle, address := 0x10, command := 17 })).volume =
      max (s.volume - 1) (-447) := by rw [RC5Update_volume_down]; exact hd
  refine ⟨hu1, ?_, hd1, ?_, ?_, ?_, ?_⟩
  · rw [RC5Update_volume_up]
    exact volumeUp_volume { s with oldtoggle := toggle } hlo hhi
  · rw [RC5Update_volume_down]
    exact volumeDown_volume { s with oldtoggle := toggle } hlo hhi
  · rw [RC5Update_volume_up _ toggle]
    have h2 := volumeUp_volume
      (RC5Update s (some { toggle := toggle, address := 0x10, command := 16 }))
      (by rw [hu1]; omega) (by rw [hu1]; omega)
    show (volumeUp _).volume = _
    rw [h2, hu1]; omega
  · rw [RC5Update_volume_down _ toggle]
    have h2 := volumeDown_volume
      (RC5Update s (some { toggle := toggle, address := 0x10, command := 17 }))
      (by rw [hd1]; omega) (by rw [hd1]; omega)
    show (volumeDown _).volume = _
    rw [h2, hd1]; omega
  · split <;> omega

/-- C13 on the state after boot with volume -10 and stored toggle bit 0: two
volume-up frames with toggle bit 0 give -8. -/
theorem C13_volume_frames_ignore_toggle_witness :
    (-447 : Int) ≤ ({ boot ⟨none, none⟩ with volume := -10 } : State).volume ∧
    ({ boot ⟨none, none⟩ with volume := -10 } : State).volume ≤ 0 ∧
    ({ boot ⟨none, none⟩ with volume := -10 } : State).oldtoggle = 0 ∧
    (RC5Update (RC5Update { boot ⟨none, none⟩ with volume := -10 }
      (some { toggle := 0, address := 0x10, command := 16 }))
      (some { toggle := 0, address := 0x10, command := 16 })).volume = -8 :=
  ⟨by decide, by decide, rfl,
   (C13_volume_frames_ignore_toggle { boot ⟨none, none⟩ with volume := -10 } 0
      (by decide) (by decide)).2.2.2.2.1⟩

/-! ## The time-out of input-select mode -/

/-- No remote frame touches the time stamp, the mode or the knob flags. -/
theorem RC5Update_keeps_mode (s : State) (frame : Option RC5Frame) :
    (RC5Update s frame).milOnButton = s.milOnButton ∧
    (RC5Update s frame).state = s.state ∧
    (RC5Update s frame).turnedRightFlag = s.turnedRightFlag ∧
    (RC5Update s frame).turnedLeftFlag = s.turnedLeftFlag := by
  cases frame with
  | none => exact ⟨rfl, rfl, rfl, rfl⟩
  | some f =>
    simp only [RC5Update]
    split_ifs <;>
      simp [selectSource, toggleMute, unMute, mute, volumeUp, volumeDown, setIO, setVolume,
        mcpWrite1] <;> split_ifs <;> simp

/-- A pass of `RotaryUpdate` in input-select mode with no pending turn
changes the mode only, by the unsigned 32-bit test
`(millis() - milOnButton) > 5000`. -/
theorem RotaryUpdate_idle (s : State) (now1 now2 : Nat) (hs : s.state = STATE_IO)
    (hr : s.turnedRightFlag = false) (hl : s.turnedLeftFlag = false) :
    RotaryUpdate s now1 now2 =
      (if toUInt32 ((now2 % 4294967296 : Nat) - (s.milOnButton : Int)) > 5000
       then { s with state := STATE_RUN } else s) := by
  have h10 : ¬ ( STATE_IO = STATE_RUN) := by decide
  have h5 : toUInt32 (TIME_EXITSELECT * 1000) = 5000 := by decide
  simp only [RotaryUpdate, sourceUpdate, hs, hr, hl, h10, h5, if_false, if_true,
    Bool.false_eq_true]

/-- C14 (counterexample): in input-select mode entered at 1000 ms, with no
pending turn, the pass at 6000 ms (5000 ms elapsed) leaves the mode
`STATE_IO`; the pass at 6001 ms sets `STATE_RUN`. -/
theorem C14_timeout_not_at_5000 :
    (RotaryUpdate { boot ⟨none, none⟩ with state := STATE_IO, milOnButton := 1000 }
      6000 6000).state = STATE_IO ∧
    (RotaryUpdate { boot ⟨none, none⟩ with state := STATE_IO, milOnButton := 1000 }
      6000 6000).state ≠ STATE_RUN ∧
    (loop { boot ⟨none, none⟩ with state := STATE_IO, milOnButton := 1000 }
      none 6000 6000).state = STATE_IO ∧
    (RotaryUpdate { boot ⟨none, none⟩ with state := STATE_IO, milOnButton := 1000 }
      6001 6001).state = STATE_RUN := by
  decide

/-- C14 (amended): for every state in input-select mode with no pending
turn, entered or re-armed at `milOnButton`, a pass of the control loop (no
remote frame) whose clock reading lies `e` ms after the entry, on the 32-bit
millisecond clock and so also across its wrap-around, sets the mode to
`STATE_RUN` when the elapsed time is more than 5000 ms and leaves it
`STATE_IO` when it is 5000 ms or less; nothing else changes. -/
theorem C14_timeout_after_5000 (s : State) (now1 e : Nat) :
    RotaryUpdate { s with state := STATE_IO, turnedRightFlag := false,
                          turnedLeftFlag := false }
        now1 ((s.milOnButton + e) % 4294967296) =
      { s with state := (if e % 4294967296 > 5000 then STATE_RUN else STATE_IO),
               turnedRightFlag := false, turnedLeftFlag := false } ∧
    loop { s with state := STATE_IO, turnedRightFlag := false,
                  turnedLeftFlag := false }
        none now1 ((s.milOnButton + e) % 4294967296) =
      { s with state := (if e % 4294967296 > 5000 then STATE_RUN else STATE_IO),
               turnedRightFlag := false, turnedLeftFlag := false } := by
  have h := RotaryUpdate_idle
    { s with state := STATE_IO, turnedRightFlag := false, turnedLeftFlag := false }
    now1 ((s.milOnButton + e) % 4294967296) rfl rfl rfl
  have he : toUInt32 ((((s.milOnButton + e) % 4294967296) % 4294967296 : Nat) -
      (s.milOnButton : Int)) = e % 4294967296 := by
    simp only [toUInt32]; omega
  dsimp only at h
  rw [he] at h
  have hmain :
      RotaryUpdate { s with state := STATE_IO, turnedRightFlag := false,
                            turnedLeftFlag := false }
          now1 ((s.milOnButton + e) % 4294967296) =
        { s with state := (if e % 4294967296 > 5000 then STATE_RUN else STATE_IO),
                 turnedRightFlag := false, turnedLeftFlag := false } := by
    rw [h]; split <;> rfl
  exact ⟨hmain, hmain⟩

/-- C14 across the wrap-around of the clock: input-select mode entered at
4294967000 ms; the pass whose clock reads 5500 ms, 5796 ms later, sets run
mode, and the pass whose clock reads 4704 ms, exactly 5000 ms later, does
not. -/
theorem C14_timeout_after_5000_witness :
    (RotaryUpdate { ({ boot ⟨none, none⟩ with milOnButton := 4294967000 } : State) with
        state := STATE_IO, turnedRightFlag := false, turnedLeftFlag := false }
      5500 5500).state = STATE_RUN ∧
    (RotaryUpdate { ({ boot ⟨none, none⟩ with milOnButton := 4294967000 } : State) with
        state := STATE_IO, turnedRightFlag := false, turnedLeftFlag := false }
      4704 4704).state = STATE_IO :=
  ⟨congrArg State.state
     (C14_timeout_after_5000 { boot ⟨none, none⟩ with milOnButton := 4294967000 }
        5500 5796).1,
   congrArg State.state
     (C14_timeout_after_5000 { boot ⟨none, none⟩ with milOnButton := 4294967000 }
        4704 5000).1⟩

/-- C15 (the code at the failing input): input-select mode entered at 1000 ms
with source
1; the Tuner frame (1, 0x10, 3) arrives in the pass at 5900 ms, 4.9 s after
entry, and selects source 4, but the time stamp stays 1000; the pass at
6001 ms, 101 ms after the source change, sets run mode. -/
theorem C15_remote_select_does_not_rearm :
    (loop { boot ⟨none, none⟩ with state := STATE_IO, milOnButton := 1000, source := 1 }
      (some { toggle := 1, address := 0x10, command := 3 }) 5900 5900).source = 4 ∧
    (loop { boot ⟨none, none⟩ with state := STATE_IO, milOnButton := 1000, source := 1 }
      (some { toggle := 1, address := 0x10, command := 3 }) 5900 5900).milOnButton = 1000 ∧
    (loop { boot ⟨none, none⟩ with state := STATE_IO, milOnButton := 1000, source := 1 }
      (some { toggle := 1, address := 0x10, command := 3 }) 5900 5900).state = STATE_IO ∧
    (loop (loop { boot ⟨none, none⟩ with
                  state := STATE_IO, milOnButton := 1000, source := 1 }
      (some { toggle := 1, address := 0x10, command := 3 }) 5900 5900)
      none 6001 6001).state = STATE_RUN := by
  decide

/-- The re-arming the code does have: in input-select mode a source change
made with the knob
sets the recorded entry time to the reading of `millis()` in that pass
(`now1`); the mode is still `STATE_IO` after the pass, and a later pass at
time `t` with no pending turn leaves it `STATE_IO` exactly as long as
`t - now1 ≤ 5000`.  A remote frame never changes the recorded entry time or
the mode. -/
theorem knob_rearms_timeout (s : State) (now1 now2 t1 t : Nat) (frame : Option RC5Frame)
    (h12 : now1 ≤ now2) (h2 : now2 - now1 ≤ 5000) (h32 : now2 < 4294967296)
    (ht : now1 ≤ t) (ht32 : t < 4294967296) :
    ((RotaryUpdate { s with state := STATE_IO, turnedRightFlag := true,
                            turnedLeftFlag := false } now1 now2).milOnButton = now1 ∧
      (RotaryUpdate { s with state := STATE_IO, turnedRightFlag := true,
                             turnedLeftFlag := false } now1 now2).state = STATE_IO ∧
      (RotaryUpdate (RotaryUpdate { s with state := STATE_IO, turnedRightFlag := true,
                                           turnedLeftFlag := false } now1 now2) t1 t).state =
        (if t - now1 > 5000 then STATE_RUN else STATE_IO)) ∧
    ((RotaryUpdate { s with state := STATE_IO, turnedRightFlag := false,
                            turnedLeftFlag := true } now1 now2).milOnButton = now1 ∧
      (RotaryUpdate { s with state := STATE_IO, turnedRightFlag := false,
                             turnedLeftFlag := true } now1 now2).state = STATE_IO ∧
      (RotaryUpdate (RotaryUpdate { s with state := STATE_IO, turnedRightFlag := false,
                                           turnedLeftFlag := true } now1 now2) t1 t).state =
        (if t - now1 > 5000 then STATE_RUN else STATE_IO)) ∧
    ((RC5Update s frame).milOnButton = s.milOnButton ∧
      (RC5Update s frame).state = s.state) := by
  have key : ∀ u : State, u.state = STATE_IO →
      (sourceUpdate u now1).milOnButton = now1 → (sourceUpdate u now1).state = STATE_IO →
      (sourceUpdate u now1).turnedRightFlag = false →
      (sourceUpdate u now1).turnedLeftFlag = false →
      (RotaryUpdate u now1 now2).milOnButton = now1 ∧
      (RotaryUpdate u now1 now2).state = STATE_IO ∧
      (RotaryUpdate (RotaryUpdate u now1 now2) t1 t).state =
        (if t - now1 > 5000 then STATE_RUN else STATE_IO) := by
    intro u hu hm hst hr hl
    have h10 : ¬ ( STATE_IO = STATE_RUN) := by decide
    have h5 : toUInt32 (TIME_EXITSELECT * 1000) = 5000 := by decide
    have he : toUInt32 ((now2 % 4294967296 : Nat) - (now1 : Int)) = now2 - now1 := by
      simp only [toUInt32]; omega
    have hR : RotaryUpdate u now1 now2 = sourceUpdate u now1 := by
      simp only [RotaryUpdate, hu, h10, h5, hm, he, if_false, if_true]
      rw [if_neg (by omega)]
    rw [hR]
    refine ⟨hm, hst, ?_⟩
    rw [RotaryUpdate_idle _ t1 t hst hr hl, hm]
    have he2 : toUInt32 ((t % 4294967296 : Nat) - (now1 : Int)) = t - now1 := by
      simp only [toUInt32]; omega
    rw [he2]
    split
    · rfl
    · exact hst
  have hmod : now1 % 4294967296 = now1 := by omega
  have hR := sourceUpdate_right
    { s with state := STATE_IO, turnedRightFlag := true, turnedLeftFlag := false } now1 rfl
  have hL := sourceUpdate_left
    { s with state := STATE_IO, turnedRightFlag := false, turnedLeftFlag := true }
    now1 rfl rfl
  have hio := fun u : State => setIO_fields u
  refine ⟨key _ rfl (by rw [hR.2.2.2.1, hmod]) hR.2.2.2.2.1 hR.2.2.2.2.2 ?_,
    key _ rfl (by rw [hL.2.2.2.1, hmod]) hL.2.2.2.2.1 ?_ hL.2.2.2.2.2,
    (RC5Update_keeps_mode s frame).1, (RC5Update_keeps_mode s frame).2.1⟩
  · by_cases h4 : s.source < 4 <;> simp [sourceUpdate, h4, setIO, mcpWrite1, setVolume] <;>
      split <;> rfl
  · by_cases h1 : s.source > 1 <;> simp [sourceUpdate, h1, setIO, mcpWrite1, setVolume] <;>
      split <;> rfl

/-- With entry at 1000 ms and a right turn in the pass at 5900 ms: the
mode is still `STATE_IO` in the pass at 6000 ms, the original 5 s mark. -/
theorem knob_rearms_timeout_example :
    ((5900 : Nat) ≤ 5900 ∧ (5900 : Nat) - 5900 ≤ 5000 ∧ (5900 : Nat) < 4294967296 ∧
      (5900 : Nat) ≤ 6000 ∧ (6000 : Nat) < 4294967296) ∧
    (RotaryUpdate { ({ boot ⟨none, none⟩ with milOnButton := 1000, source := 1 } : State) with
        state := STATE_IO, turnedRightFlag := true, turnedLeftFlag := false }
      5900 5900).milOnButton = 5900 ∧
    (RotaryUpdate (RotaryUpdate
      { ({ boot ⟨none, none⟩ with milOnButton := 1000, source := 1 } : State) with
        state := STATE_IO, turnedRightFlag := true, turnedLeftFlag := false }
      5900 5900) 6000 6000).state = STATE_IO :=
  ⟨by decide,
   (knob_rearms_timeout { boot ⟨none, none⟩ with milOnButton := 1000, source := 1 }
      5900 5900 6000 6000 none (by decide) (by decide) (by decide) (by decide)
      (by decide)).1.1,
   (knob_rearms_timeout { boot ⟨none, none⟩ with milOnButton := 1000, source := 1 }
      5900 5900 6000 6000 none (by decide) (by decide) (by decide) (by decide)
      (by decide)).1.2.2⟩

/-! ## Write-through persistence -/

/-- Every remote frame writes through. -/
theorem RC5Update_writeThrough (s : State) (frame : Option RC5Frame) :
    WriteThrough s (RC5Update s frame) := by
  cases frame with
  | none => exact ⟨Or.inr ⟨rfl, rfl⟩, Or.inr ⟨rfl, rfl⟩⟩
  | some f =>
    simp only [RC5Update, WriteThrough]
    split_ifs <;>
      simp [selectSource, toggleMute, unMute, mute, volumeUp, volumeDown, setIO, setVolume,
        mcpWrite1] <;> split_ifs <;> simp

/-- Every pass of `RotaryUpdate` writes through. -/
theorem RotaryUpdate_writeThrough (s : State) (now1 now2 : Nat) :
    WriteThrough s (RotaryUpdate s now1 now2) := by
  simp only [RotaryUpdate, WriteThrough, volumeUpdate, sourceUpdate]
  split_ifs <;>
    simp [unMute, volumeUp, volumeDown, setIO, setVolume, mcpWrite1] <;> split_ifs <;> simp

/-- A write-through step keeps the store equal to the memory. -/
theorem WriteThrough.persisted (s t : State) (h : WriteThrough s t) (hs : Persisted s) :
    Persisted t := by
  obtain ⟨hv, hsrc⟩ := h
  obtain ⟨pv, ps⟩ := hs
  constructor
  · rcases hv with h1 | ⟨h1, h2⟩
    · exact h1
    · rw [h2, h1]; exact pv
  · rcases hsrc with h1 | ⟨h1, h2⟩
    · exact h1
    · rw [h2, h1]; exact ps

/-- After `setup()` the store holds the volume and the source in memory,
whatever was stored before. -/
theorem setup_persisted (stored : Preferences) : Persisted (setup (boot stored)) := by
  simp only [Persisted, setup, setIO, mcpWrite1, setVolume, loadVolume, loadSource, setupMute,
    setupZeroCrossing, setupExternalClock, setupMusesBegin, setupDisplay, boot]
  split_ifs <;> simp

/-- C16: after `setup()`, for every content of the store, the stored
`VOLUME` and `SOURCE` equal the volume and the source in memory; every
remote frame, every pass of `RotaryUpdate`, every button press, every knob
callback and every pass of `loop()` keeps this; and each such step writes
through: a volume or source it changes is stored with its new value by the
same step. -/
theorem C16_write_through (stored : Preferences) (s : State) (frame : Option RC5Frame)
    (now1 now2 duration now : Nat) (value : Int) (h : Persisted s) :
    Persisted (setup (boot stored)) ∧
    Persisted (RC5Update s frame) ∧
    Persisted (RotaryUpdate s now1 now2) ∧
    Persisted (buttonCallback s duration now) ∧
    Persisted (knobCallback s value) ∧
    Persisted (loop s frame now1 now2) ∧
    WriteThrough s (RC5Update s frame) ∧
    WriteThrough s (RotaryUpdate s now1 now2) ∧
    WriteThrough s (buttonCallback s duration now) ∧
    WriteThrough s (knobCallback s value) := by
  have hrc := RC5Update_writeThrough s frame
  have hro := RotaryUpdate_writeThrough s now1 now2
  have hb : WriteThrough s (buttonCallback s duration now) := by
    simp only [buttonCallback, WriteThrough]
    split_ifs <;> simp
  have hk : WriteThrough s (knobCallback s value) := by
    simp only [knobCallback, WriteThrough]
    split_ifs <;> simp
  have prc := WriteThrough.persisted _ _ hrc h
  refine ⟨setup_persisted stored, prc, WriteThrough.persisted _ _ hro h,
    WriteThrough.persisted _ _ hb h, WriteThrough.persisted _ _ hk h, ?_, hrc, hro, hb, hk⟩
  exact WriteThrough.persisted _ _ (RotaryUpdate_writeThrough (RC5Update s frame) now1 now2) prc

/-- C16 on the state after `setup()` with an empty store: the volume-up
frame leaves -446 in memory and in the store. -/
theorem C16_write_through_witness :
    Persisted (setup (boot ⟨none, none⟩)) ∧
    (RC5Update (setup (boot ⟨none, none⟩))
      (some { toggle := 1, address := 0x10, command := 16 })).volume = -446 ∧
    (RC5Update (setup (boot ⟨none, none⟩))
      (some { toggle := 1, address := 0x10, command := 16 })).preferences.VOLUME
      = some (-446) :=
  ⟨⟨rfl, rfl⟩, by decide,
   (C16_write_through ⟨none, none⟩ (setup (boot ⟨none, none⟩))
      (some { toggle := 1, address := 0x10, command := 16 }) 0 0 0 0 0 ⟨rfl, rfl⟩).2.1.1⟩

/-! ## Frames the program does not know -/

/-- C17: a frame whose address is neither 0x10 nor 0x14, or whose address
is 0x10 with a command other than 1, 3, 7, 8, 13, 16, 17, or whose address is
0x14 with a command other than 53, only replaces the stored toggle bit by
the toggle bit of the frame: volume, source, mute flag and mode are
unchanged and nothing is sent to the chip, the routing lines or the
store. -/
theorem C17_unexpected_frame_ignored (s : State) (f : RC5Frame)
    (hf : (f.address ≠ 0x10 ∧ f.address ≠ 0x14) ∨
      (f.address = 0x10 ∧ f.command ≠ 1 ∧ f.command ≠ 3 ∧ f.command ≠ 7 ∧ f.command ≠ 8 ∧
        f.command ≠ 13 ∧ f.command ≠ 16 ∧ f.command ≠ 17) ∨
      (f.address = 0x14 ∧ f.command ≠ 53)) :
    RC5Update s (some f) = { s with oldtoggle := f.toggle } ∧
    (RC5Update s (some f)).volume = s.volume ∧
    (RC5Update s (some f)).source = s.source ∧
    (RC5Update s (some f)).isMuted = s.isMuted ∧
    (RC5Update s (some f)).state = s.state ∧
    (RC5Update s (some f)).spi = s.spi ∧
    (RC5Update s (some f)).mcp = s.mcp ∧
    (RC5Update s (some f)).preferences = s.preferences ∧
    (RC5Update s (some f)).oldtoggle = f.toggle := by
  have h : RC5Update s (some f) = { s with oldtoggle := f.toggle } := by
    rcases hf with ⟨h1, h2⟩ | ⟨h1, h2, h3, h4, h5, h6, h7, h8⟩ | ⟨h1, h2⟩
    · simp [RC5Update, h1, h2]
    · simp [RC5Update, h1, h2, h3, h4, h5, h6, h7, h8]
    · simp [RC5Update, h1, h2]
  rw [h]
  exact ⟨rfl, rfl, rfl, rfl, rfl, rfl, rfl, rfl, rfl⟩

/-- C17 on the state after boot: the frame (1, 0x10, 59) only sets the
stored toggle bit. -/
theorem C17_unexpected_frame_ignored_witness :
    RC5Update (boot ⟨none, none⟩) (some { toggle := 1, address := 0x10, command := 59 }) =
      { boot ⟨none, none⟩ with oldtoggle := 1 } :=
  (C17_unexpected_frame_ignored (boot ⟨none, none⟩)
    { toggle := 1, address := 0x10, command := 59 }
    (Or.inr (Or.inl (by decide)))).1

/-! ## The push button -/

/-- C18 (the code at the failing input): a press of 2147483648 ms, more than
50, received in run mode leaves the mode `STATE_RUN` and the entry time
unchanged: the duration is stored into an `int` and becomes negative. -/
theorem C18_long_press_ignored :
    (2147483648 : Nat) > 50 ∧
    (boot ⟨none, none⟩).state = STATE_RUN ∧
    (buttonCallback (boot ⟨none, none⟩) 2147483648 777).state = STATE_RUN ∧
    (buttonCallback (boot ⟨none, none⟩) 2147483648 777).state ≠ STATE_IO ∧
    (buttonCallback (boot ⟨none, none⟩) 2147483648 777).milOnButton = 0 := by
  decide

/-- What `buttonCallback` does, case by case: for every press duration `d`
below `2 ^ 31` ms, a press
received in run mode with `d > 50` sets the mode to `STATE_IO` and records
the current time `now` as the entry time, and a press with `d ≤ 50` changes
nothing; a press of `2 ^ 31` ms or more (`big`) in run mode changes nothing;
a press of any duration received in input-select mode changes nothing; and
no press changes volume, source or mute flag. -/
theorem button_transition_cases (s : State) (d big any now : Nat)
    (hd : d < 2147483648) (hbig : 2147483648 ≤ big) (hbig32 : big < 4294967296)
    (hnow : now < 4294967296) :
    buttonCallback { s with state := STATE_RUN } d now =
      (if d > 50 then { s with state := STATE_IO, milOnButton := now }
       else { s with state := STATE_RUN }) ∧
    buttonCallback { s with state := STATE_RUN } big now = { s with state := STATE_RUN } ∧
    buttonCallback { s with state := STATE_IO } any now = { s with state := STATE_IO } ∧
    (buttonCallback s any now).volume = s.volume ∧
    (buttonCallback s any now).source = s.source ∧
    (buttonCallback s any now).isMuted = s.isMuted := by
  have h10 : ¬ ( STATE_IO = STATE_RUN) := by decide
  have hmod : now % 4294967296 = now := by omega
  have e1 : wrapInt32 (d : Int) = d := by simp only [wrapInt32]; omega
  have e2 : ¬ (wrapInt32 (big : Int) > 50) := by simp only [wrapInt32]; omega
  refine ⟨?_, ?_, ?_, ?_, ?_, ?_⟩
  · simp only [buttonCallback, e1, hmod, if_true]
    by_cases h : d > 50
    · have h' : (d : Int) > 50 := by omega
      simp [h, h']
    · have h' : ¬ ((d : Int) > 50) := by omega
      simp [h, h']
  · simp only [buttonCallback, e2, if_false]
  · simp only [buttonCallback, h10, if_false]
    split <;> rfl
  all_goals
    simp only [buttonCallback]
    split_ifs <;> rfl

/-- On the state after boot: a press of 51 ms at time 777 enters
input-select mode and records 777. -/
theorem button_transition_example :
    ((51 : Nat) < 2147483648 ∧ (2147483648 : Nat) ≤ 2147483648 ∧
      (2147483648 : Nat) < 4294967296 ∧ (777 : Nat) < 4294967296) ∧
    (buttonCallback { boot ⟨none, none⟩ with state := STATE_RUN } 51 777).state = STATE_IO ∧
    (buttonCallback { boot ⟨none, none⟩ with state := STATE_RUN } 51 777).milOnButton = 777 :=
  ⟨by decide,
   congrArg State.state
     (button_transition_cases (boot ⟨none, none⟩) 51 2147483648 0 777
        (by decide) (by decide) (by decide) (by decide)).1,
   congrArg State.milOnButton
     (button_transition_cases (boot ⟨none, none⟩) 51 2147483648 0 777
        (by decide) (by decide) (by decide) (by decide)).1⟩

/-! ## Volume events while muted -/

/-- The increase step from a muted state: unmute, which sends the frames of
the old volume, then one step up with its frames when the volume is below
0. -/
theorem volumeUp_muted (s : State) (hm : s.isMuted = true)
    (hlo : -447 ≤ s.volume) (hhi : s.volume ≤ 0) :
    (volumeUp s).isMuted = false ∧
    (volumeUp s).volume = min (s.volume + 1) 0 ∧
    (volumeUp s).spi = s.spi ++ s.Muses.setVolume s.volume s.volume ++
      (if s.volume < 0 then s.Muses.setVolume (s.volume + 1) (s.volume + 1) else []) := by
  have hu := unMute_fields s
  have hw : wrapInt16 (s.volume + 1) = s.volume + 1 := by simp only [wrapInt16]; omega
  refine ⟨?_, volumeUp_volume s hlo hhi, ?_⟩
  · simp only [volumeUp, hm, if_true, hu.1]
    split
    · exact hu.2.2.1
    · exact hu.2.2.1
  · simp only [volumeUp, hm, if_true, hu.1]
    split
    · show (unMute s).spi ++ (unMute s).Muses.setVolume _ _ = _
      rw [hu.2.2.2.2.2, hu.2.2.2.2.1, hw]
    · rw [hu.2.2.2.2.2, List.append_nil]

/-- The decrease step from a muted state: unmute, which sends the frames of
the old volume, then one step down with its frames when the volume is above
-447. -/
theorem volumeDown_muted (s : State) (hm : s.isMuted = true)
    (hlo : -447 ≤ s.volume) (hhi : s.volume ≤ 0) :
    (volumeDown s).isMuted = false ∧
    (volumeDown s).volume = max (s.volume - 1) (-447) ∧
    (volumeDown s).spi = s.spi ++ s.Muses.setVolume s.volume s.volume ++
      (if s.volume > -447 then s.Muses.setVolume (s.volume - 1) (s.volume - 1) else []) := by
  have hu := unMute_fields s
  have hw : wrapInt16 (s.volume - 1) = s.volume - 1 := by simp only [wrapInt16]; omega
  refine ⟨?_, volumeDown_volume s hlo hhi, ?_⟩
  · simp only [volumeDown, hm, if_true, hu.1]
    split
    · exact hu.2.2.1
    · exact hu.2.2.1
  · simp only [volumeDown, hm, if_true, hu.1]
    split
    · show (unMute s).spi ++ (unMute s).Muses.setVolume _ _ = _
      rw [hu.2.2.2.2.2, hu.2.2.2.2.1, hw]
    · rw [hu.2.2.2.2.2, List.append_nil]

/-- The frames of the new volume end the trace of an increase step. -/
theorem up_frames_last (m : Muses72323) (pre : List SpiEvent) (v : Int) (hhi : v ≤ 0) :
    m.setVolume (min (v + 1) 0) (min (v + 1) 0) <:+
      pre ++ m.setVolume v v ++ (if v < 0 then m.setVolume (v + 1) (v + 1) else []) := by
  by_cases h : v < 0
  · have e : min (v + 1) 0 = v + 1 := by omega
    rw [if_pos h, e]
    exact List.suffix_append _ _
  · have e : min (v + 1) 0 = v := by omega
    rw [if_neg h, e, List.append_nil]
    exact List.suffix_append _ _

/-- The frames of the new volume end the trace of a decrease step. -/
theorem down_frames_last (m : Muses72323) (pre : List SpiEvent) (v : Int) (hlo : -447 ≤ v) :
    m.setVolume (max (v - 1) (-447)) (max (v - 1) (-447)) <:+
      pre ++ m.setVolume v v ++ (if v > -447 then m.setVolume (v - 1) (v - 1) else []) := by
  by_cases h : v > -447
  · have e : max (v - 1) (-447) = v - 1 := by omega
    rw [if_pos h, e]
    exact List.suffix_append _ _
  · have e : max (v - 1) (-447) = v := by omega
    rw [if_neg h, e, List.append_nil]
    exact List.suffix_append _ _

/-- C19: for every state with `isMuted = true` and volume `v` in
`[-447, 0]`, a turn of the knob in run mode and the remote commands 16 and
17 end with `isMuted = false` and the volume `min (v + 1) 0` or
`max (v - 1) (-447)`.  The bus trace is extended by the frames of `v` (the
unmute) and then, when the volume changes, by the frames of the new volume;
so in every case, also at the boundary, the trace ends with the two frames
`Muses.setVolume` sends for the new volume. -/
theorem C19_volume_event_unmutes (s : State) (now1 now2 toggle : Nat)
    (hm : s.isMuted = true) (hlo : -447 ≤ s.volume) (hhi : s.volume ≤ 0) :
    ((RotaryUpdate { s with state := STATE_RUN, turnedRightFlag := true } now1 now2).isMuted
        = false ∧
      (RotaryUpdate { s with state := STATE_RUN, turnedRightFlag := true } now1 now2).volume
        = min (s.volume + 1) 0 ∧
      (RotaryUpdate { s with state := STATE_RUN, turnedRightFlag := true } now1 now2).spi
        = s.spi ++ s.Muses.setVolume s.volume s.volume ++
          (if s.volume < 0 then s.Muses.setVolume (s.volume + 1) (s.volume + 1) else []) ∧
      s.Muses.setVolume (min (s.volume + 1) 0) (min (s.volume + 1) 0) <:+
        (RotaryUpdate { s with state := STATE_RUN, turnedRightFlag := true } now1 now2).spi) ∧
    ((RotaryUpdate { s with state := STATE_RUN, turnedRightFlag := false,
                            turnedLeftFlag := true } now1 now2).isMuted = false ∧
      (RotaryUpdate { s with state := STATE_RUN, turnedRightFlag := false,
                             turnedLeftFlag := true } now1 now2).volume
        = max (s.volume - 1) (-447) ∧
      (RotaryUpdate { s with state := STATE_RUN, turnedRightFlag := false,
                             turnedLeftFlag := true } now1 now2).spi
        = s.spi ++ s.Muses.setVolume s.volume s.volume ++
          (if s.volume > -447 then s.Muses.setVolume (s.volume - 1) (s.volume - 1) else []) ∧
      s.Muses.setVolume (max (s.volume - 1) (-447)) (max (s.volume - 1) (-447)) <:+
        (RotaryUpdate { s with state := STATE_RUN, turnedRightFlag := false,
                               turnedLeftFlag := true } now1 now2).spi) ∧
    ((RC5Update s (some { toggle := toggle, address := 0x10, command := 16 })).isMuted
        = false ∧
      (RC5Update s (some { toggle := toggle, address := 0x10, command := 16 })).volume
        = min (s.volume + 1) 0 ∧
      (RC5Update s (some { toggle := toggle, address := 0x10, command := 16 })).spi
        = s.spi ++ s.Muses.setVolume s.volume s.volume ++
          (if s.volume < 0 then s.Muses.setVolume (s.volume + 1) (s.volume + 1) else []) ∧
      s.Muses.setVolume (min (s.volume + 1) 0) (min (s.volume + 1) 0) <:+
        (RC5Update s (some { toggle := toggle, address := 0x10, command := 16 })).spi) ∧
    ((RC5Update s (some { toggle := toggle, address := 0x10, command := 17 })).isMuted
        = false ∧
      (RC5Update s (some { toggle := toggle, address := 0x10, command := 17 })).volume
        = max (s.volume - 1) (-447) ∧
      (RC5Update s (some { toggle := toggle, address := 0x10, command := 17 })).spi
        = s.spi ++ s.Muses.setVolume s.volume s.volume ++
          (if s.volume > -447 then s.Muses.setVolume (s.volume - 1) (s.volume - 1) else []) ∧
      s.Muses.setVolume (max (s.volume - 1) (-447)) (max (s.volume - 1) (-447)) <:+
        (RC5Update s (some { toggle := toggle, address := 0x10, command := 17 })).spi) := by
  have hu := volumeUp_muted s hm hlo hhi
  have hd := volumeDown_muted s hm hlo hhi
  have hu' := volumeUp_muted { s with state := STATE_RUN, turnedRightFlag := true } hm hlo hhi
  have hd' := volumeDown_muted
    { s with state := STATE_RUN, turnedRightFlag := false, turnedLeftFlag := true } hm hlo hhi
  have lu := up_frames_last s.Muses s.spi s.volume hhi
  have ld := down_frames_last s.Muses s.spi s.volume hlo
  have e1 : RotaryUpdate { s with state := STATE_RUN, turnedRightFlag := true } now1 now2 =
      { volumeUp { s with state := STATE_RUN, turnedRightFlag := true } with
        turnedRightFlag := false } := by
    simp [RotaryUpdate, volumeUpdate]
  have e2 : RotaryUpdate { s with state := STATE_RUN, turnedRightFlag := false,
                                  turnedLeftFlag := true } now1 now2 =
      { volumeDown { s with state := STATE_RUN, turnedRightFlag := false,
                            turnedLeftFlag := true } with
        turnedLeftFlag := false } := by
    simp [RotaryUpdate, volumeUpdate]
  refine ⟨?_, ?_, ?_, ?_⟩
  · rw [e1]
    exact ⟨hu'.1, hu'.2.1, hu'.2.2, by
      show _ <:+ (volumeUp { s with state := STATE_RUN, turnedRightFlag := true }).spi
      rw [hu'.2.2]; exact lu⟩
  · rw [e2]
    exact ⟨hd'.1, hd'.2.1, hd'.2.2, by
      show _ <:+ (volumeDown { s with state := STATE_RUN, turnedRightFlag := false,
                                      turnedLeftFlag := true }).spi
      rw [hd'.2.2]; exact ld⟩
  · rw [RC5Update_volume_up]
    exact ⟨hu.1, hu.2.1, hu.2.2, by
      show _ <:+ (volumeUp s).spi
      rw [hu.2.2]; exact lu⟩
  · rw [RC5Update_volume_down]
    exact ⟨hd.1, hd.2.1, hd.2.2, by
      show _ <:+ (volumeDown s).spi
      rw [hd.2.2]; exact ld⟩

/-- C19 on a state muted at volume 0: the volume-up frame unmutes, leaves
the volume at 0 and sends the frames of volume 0 once. -/
theorem C19_volume_event_unmutes_witness :
    ({ boot ⟨none, none⟩ with isMuted := true, source := 1 } : State).isMuted = true ∧
    (-447 : Int) ≤ ({ boot ⟨none, none⟩ with isMuted := true, source := 1 } : State).volume ∧
    ({ boot ⟨none, none⟩ with isMuted := true, source := 1 } : State).volume ≤ 0 ∧
    (RC5Update { boot ⟨none, none⟩ with isMuted := true, source := 1 }
      (some { toggle := 1, address := 0x10, command := 16 })).isMuted = false ∧
    (RC5Update { boot ⟨none, none⟩ with isMuted := true, source := 1 }
      (some { toggle := 1, address := 0x10, command := 16 })).volume = 0 ∧
    (RC5Update { boot ⟨none, none⟩ with isMuted := true, source := 1 }
      (some { toggle := 1, address := 0x10, command := 16 })).spi =
      [] ++ (Muses72323.construct 0 0).setVolume 0 0 ++ [] :=
  ⟨rfl, by decide, by decide,
   (C19_volume_event_unmutes { boot ⟨none, none⟩ with isMuted := true, source := 1 } 0 0 1
      rfl (by decide) (by decide)).2.2.1.1,
   (C19_volume_event_unmutes { boot ⟨none, none⟩ with isMuted := true, source := 1 } 0 0 1
      rfl (by decide) (by decide)).2.2.1.2.1,
   (C19_volume_event_unmutes { boot ⟨none, none⟩ with isMuted := true, source := 1 } 0 0 1
      rfl (by decide) (by decide)).2.2.1.2.2.1⟩

/-! ## The routing lines -/

/-- The routing state depends on the write log, `source` and `oldsource`
only. -/
theorem RoutingOk.congr (s t : State) (h : RoutingOk s) (hm : t.mcp = s.mcp)
    (hs : t.source = s.source) (ho : t.oldsource = s.oldsource) : RoutingOk t := by
  unfold RoutingOk at *
  rw [hm, hs, ho]; exact h

/-- On a 16-bit value `bitWrite` sets the chosen bit to the given value and
leaves every other bit as it was. -/
theorem bitWrite_testBit (g bit : Nat) (b : Bool) (hbit : bit < 16) (hg : g < 65536)
    (i : Nat) :
    (bitWrite g bit b).testBit i = (if i = bit then b else g.testBit i) := by
  have h16 : (65536 : Nat) = 2 ^ 16 := rfl
  have h32 : (4294967295 : Nat) = 2 ^ 32 - 1 := rfl
  have hlt : 2 ^ bit < 4294967296 :=
    lt_of_lt_of_le (Nat.pow_lt_pow_right (by decide) hbit) (by decide)
  have hhigh : ∀ j, 16 ≤ j → g.testBit j = false := fun j hj =>
    Nat.testBit_lt_two_pow
      (lt_of_lt_of_le (by rw [h16] at hg; exact hg) (Nat.pow_le_pow_right (by decide) hj))
  cases b
  · simp only [bitWrite, bitClear, Bool.false_eq_true, if_false, Nat.one_shiftLeft,
      Nat.mod_eq_of_lt hlt]
    rw [h16, h32]
    simp only [Nat.testBit_mod_two_pow, Nat.testBit_and, Nat.testBit_xor,
      Nat.testBit_two_pow_sub_one, Nat.testBit_two_pow]
    by_cases hi : i = bit
    · subst hi
      have h' : i < 32 := by omega
      simp [h']
    · have hi' : ¬ (bit = i) := fun e => hi e.symm
      by_cases h : i < 16
      · have h' : i < 32 := by omega
        simp [hi, hi', h, h']
      · simp [hi, h, hhigh i (by omega)]
  · simp only [bitWrite, bitSet, if_true, Nat.one_shiftLeft]
    rw [h16]
    simp only [Nat.testBit_mod_two_pow, Nat.testBit_or, Nat.testBit_two_pow]
    by_cases hi : i = bit
    · subst hi; simp [hbit]
    · have hi' : ¬ (bit = i) := fun e => hi e.symm
      by_cases h : i < 16
      · simp [hi, hi', h]
      · simp [hi, h, hhigh i (by omega)]

/-- The result of `bitWrite` on a 16-bit value is a 16-bit value. -/
theorem bitWrite_lt (g bit : Nat) (b : Bool) : bitWrite g bit b < 65536 := by
  cases b
  · simp only [bitWrite, bitClear, Bool.false_eq_true, if_false]
    exact Nat.mod_lt _ (by decide)
  · simp only [bitWrite, bitSet, if_true]
    exact Nat.mod_lt _ (by decide)

/-- In the word of a gain frame the bits 8 and above are those of the
data: the select address `0b1000` and a chip address below 4 lie below. -/
theorem gain_word_testBit (c d i : Nat) (hc : c < 4) (hi : 4 ≤ i) :
    (s_control_gain ||| c ||| d).testBit i = d.testBit i := by
  have h8 : s_control_gain.testBit i = false :=
    Nat.testBit_lt_two_pow (lt_of_lt_of_le (by decide : s_control_gain < 2 ^ 4)
      (Nat.pow_le_pow_right (by decide) hi))
  have hc' : c.testBit i = false :=
    Nat.testBit_lt_two_pow (lt_of_lt_of_le (by omega : c < 2 ^ 4)
      (Nat.pow_le_pow_right (by decide) hi))
  simp [Nat.testBit_or, h8, hc']

/-- C21: for every object whose gain shadow `g` is a 16-bit value,
`setZeroCrossingOn e` sets bit 8 of the shadow to `!e` and `setLinkChannels e`
sets bit 15 to `e`; every other bit of the shadow, the states shadow and the
chip address are unchanged; each call sends one frame whose word is
`0x0008 | chip_address | new shadow`.  After `setZeroCrossingOn a` then
`setLinkChannels b` the shadow has bit 8 equal to `!a` and bit 15 equal to
`b`, the other bits as in `g`, and the word of the frame sent by the second
call carries both bits. -/
theorem C21_gain_setters (m : Muses72323) (a b e : Bool) (i : Nat)
    (hg : m.gain < 65536) (hc : m.chip_address < 4) :
    ((m.setZeroCrossingOn e).1.gain.testBit i = (if i = 8 then !e else m.gain.testBit i) ∧
      (m.setZeroCrossingOn e).1.states = m.states ∧
      (m.setZeroCrossingOn e).1.chip_address = m.chip_address ∧
      (m.setZeroCrossingOn e).2 =
        [SpiEvent.beginTransaction, SpiEvent.latch false,
         SpiEvent.xfer (highByte (0x0008 ||| m.chip_address ||| (m.setZeroCrossingOn e).1.gain)),
         SpiEvent.xfer (lowByte (0x0008 ||| m.chip_address ||| (m.setZeroCrossingOn e).1.gain)),
         SpiEvent.latch true, SpiEvent.endTransaction]) ∧
    ((m.setLinkChannels e).1.gain.testBit i = (if i = 15 then e else m.gain.testBit i) ∧
      (m.setLinkChannels e).1.states = m.states ∧
      (m.setLinkChannels e).1.chip_address = m.chip_address ∧
      (m.setLinkChannels e).2 =
        [SpiEvent.beginTransaction, SpiEvent.latch false,
         SpiEvent.xfer (highByte (0x0008 ||| m.chip_address ||| (m.setLinkChannels e).1.gain)),
         SpiEvent.xfer (lowByte (0x0008 ||| m.chip_address ||| (m.setLinkChannels e).1.gain)),
         SpiEvent.latch true, SpiEvent.endTransaction]) ∧
    (((m.setZeroCrossingOn a).1.setLinkChannels b).1.gain.testBit i =
        (if i = 15 then b else if i = 8 then !a else m.gain.testBit i) ∧
      ((m.setZeroCrossingOn a).1.setLinkChannels b).2 =
        [SpiEvent.beginTransaction, SpiEvent.latch false,
         SpiEvent.xfer (highByte (0x0008 ||| m.chip_address |||
           ((m.setZeroCrossingOn a).1.setLinkChannels b).1.gain)),
         SpiEvent.xfer (lowByte (0x0008 ||| m.chip_address |||
           ((m.setZeroCrossingOn a).1.setLinkChannels b).1.gain)),
         SpiEvent.latch true, SpiEvent.endTransaction] ∧
      (0x0008 ||| m.chip_address |||
        ((m.setZeroCrossingOn a).1.setLinkChannels b).1.gain).testBit 8 = !a ∧
      (0x0008 ||| m.chip_address |||
        ((m.setZeroCrossingOn a).1.setLinkChannels b).1.gain).testBit 15 = b ∧
      (0x0008 ||| m.chip_address |||
        ((m.setZeroCrossingOn a).1.setLinkChannels b).1.gain) < 65536) := by
  have hz : ∀ j, (m.setZeroCrossingOn a).1.gain.testBit j =
      (if j = 8 then !a else m.gain.testBit j) := fun j =>
    bitWrite_testBit m.gain 8 (!a) (by decide) hg j
  have hzlt : (m.setZeroCrossingOn a).1.gain < 65536 := bitWrite_lt _ _ _
  have hzl : ∀ j, ((m.setZeroCrossingOn a).1.setLinkChannels b).1.gain.testBit j =
      (if j = 15 then b else if j = 8 then !a else m.gain.testBit j) := fun j => by
    have h := bitWrite_testBit (m.setZeroCrossingOn a).1.gain 15 b (by decide) hzlt j
    rw [hz j] at h
    exact h
  have hw : ∀ j, 4 ≤ j → (0x0008 ||| m.chip_address |||
      ((m.setZeroCrossingOn a).1.setLinkChannels b).1.gain).testBit j =
      ((m.setZeroCrossingOn a).1.setLinkChannels b).1.gain.testBit j := fun j hj =>
    gain_word_testBit m.chip_address _ j hc hj
  refine ⟨⟨bitWrite_testBit m.gain 8 (!e) (by decide) hg i, rfl, rfl, rfl⟩,
    ⟨bitWrite_testBit m.gain 15 e (by decide) hg i, rfl, rfl, rfl⟩,
    hzl i, rfl, ?_, ?_, ?_⟩
  · rw [hw 8 (by decide), hzl 8]; simp
  · rw [hw 15 (by decide), hzl 15]; simp
  · have h1 : ((m.setZeroCrossingOn a).1.setLinkChannels b).1.gain < 2 ^ 16 :=
      bitWrite_lt _ _ _
    have h2 : m.chip_address < 2 ^ 16 := by omega
    have h3 : (0x0008 : Nat) < 2 ^ 16 := by decide
    exact Nat.or_lt_two_pow (Nat.or_lt_two_pow h3 h2) h1

/-- C21 on the object of the program (chip address 0, zero shadows):
`setZeroCrossingOn false` then `setLinkChannels true` leaves the shadow
`0x8100` and sends the word `0x8108`. -/
theorem C21_gain_setters_witness :
    ((Muses72323.construct 0 0).gain < 65536 ∧ (Muses72323.construct 0 0).chip_address < 4) ∧
    (((Muses72323.construct 0 0).setZeroCrossingOn false).1.setLinkChannels true).1.gain
      = 0x8100 ∧
    (((Muses72323.construct 0 0).setZeroCrossingOn false).1.setLinkChannels true).2 =
      [SpiEvent.beginTransaction, SpiEvent.latch false,
       SpiEvent.xfer 0x81, SpiEvent.xfer 0x08,
       SpiEvent.latch true, SpiEvent.endTransaction] ∧
    Nat.testBit 0x8108 8 = true ∧ Nat.testBit 0x8108 15 = true :=
  ⟨by decide, by decide,
   (C21_gain_setters (Muses72323.construct 0 0) false true true 0
      (by decide) (by decide)).2.2.2.1,
   (C21_gain_setters (Muses72323.construct 0 0) false true true 0
      (by decide) (by decide)).2.2.2.2.1,
   (C21_gain_setters (Muses72323.construct 0 0) false true true 0
      (by decide) (by decide)).2.2.2.2.2.1⟩

end Preamp
